import Mathlib

/-!
# A shallow embedding of the klipper G-code C helper core

This file embeds, in Lean 4, the parts of `klippy/chelper` that the
specification's claims talk about:

* `gcode_lexer.c`   — the incremental scanning state machine (`gcode_lexer_scan`),
* `gcode_keywords.generated.c` — the generated perfect-hash keyword table
  (embedded as the finite map it computes),
* `gcode_bridge.c`  — the statement/error ring buffer (`ring_add`,
  `gcode_queue_exec_next`, `parse_statement`),
* `gcode_interpreter.c` — the value type and `serialize`,
* `gcode_ast.c`     — the AST node helpers (`gcode_add_child`).

Modelling conventions:

* C strings and token buffers are `List Char`; every character compared by the
  lexer is ASCII, so `Char` code points coincide with the C byte values.
* `int64_t` is `Int` (the C code guards its own accumulators against exceeding
  `INT64_MAX` via `digit_exceeds`, so the mathematical value and the machine
  value coincide); where the C narrows to a 32-bit `int` the wraparound is
  modelled explicitly (`truncInt32`).
* `double` is modelled as an exact rational (`F64`, an unreduced fraction with
  `F64.toRat : F64 → ℚ` giving its value).  All concrete inputs used in
  theorems below only exercise IEEE-exact operations (small integers, `pow`
  with small integral exponents and exactly representable results), where the
  exact-rational model agrees bit-for-bit with the C `double` computation.
* Host callbacks are modelled as total (always returning `true`); their
  invocations are recorded as an `Event` list, in invocation order.  The
  lexer's `error` callback receives a `GCodeError` holding a message and the
  current source location; we represent the message by a constructor carrying
  the same arguments the C `printf`-style format receives.
-/

/-- Source location, as maintained by the lexer (`GCodeLocation`):
1-based line, column counted per character within the line. -/
structure Loc where
  first_line : Nat
  first_column : Nat
  last_line : Nat
  last_column : Nat
  deriving DecidableEq, Repr

/-- The lexer states, from the `state_t` enum in gcode_lexer.c. -/
inductive ScanState
  | SCAN_NEWLINE
  | SCAN_ERROR
  | SCAN_LINENO
  | SCAN_AFTER_LINENO
  | SCAN_STATEMENT
  | SCAN_WORD
  | SCAN_COMMENT
  | SCAN_EMPTY_LINE_COMMENT
  | SCAN_EXPR
  | SCAN_AFTER_EXPR
  | SCAN_SYMBOL
  | SCAN_IDENTIFIER
  | SCAN_STR
  | SCAN_STR_ESCAPE
  | SCAN_STR_OCTAL
  | SCAN_STR_HEX
  | SCAN_STR_LOW_UNICODE
  | SCAN_STR_HIGH_UNICODE
  | SCAN_NUMBER_BASE
  | SCAN_DECIMAL
  | SCAN_HEX
  | SCAN_BINARY
  | SCAN_OCTAL
  | SCAN_DECIMAL_FLOAT
  | SCAN_DECIMAL_FRACTION
  | SCAN_DECIMAL_EXPONENT_SIGN
  | SCAN_DECIMAL_EXPONENT
  | SCAN_HEX_FLOAT
  | SCAN_HEX_FRACTION
  | SCAN_HEX_EXPONENT_SIGN
  | SCAN_HEX_EXPONENT
  deriving DecidableEq, Repr

/-- The error messages the lexer can raise (each `ERROR(...)` site in
gcode_lexer.c), as a constructor carrying the format arguments.  The
out-of-memory error of `gcode_token_alloc` is not modelled (allocation always
succeeds in the model). -/
inductive LexError
  | IllegalOperator (tok : List Char)
  | UnknownSymbolInternal (ch : Char)
  | UnterminatedExpression
  | UnexpectedCharacter (ch : Char)
  | UnterminatedString
  | IllegalStringEscape (ch : Char)
  | OctalEscapeExceedsByte
  | IllegalOctalEscapeDigit
  | HexEscapeExceedsByte
  | HexEscapeRequiresDigit
  | LowUnicodeEscapeRequiresFourDigits
  | HighUnicodeEscapeRequiresEightDigits
  | HighUnicodeEscapeExceedsUnicode
  | BinaryLiteralExceedsMax
  | FractionalBinaryLiteral
  | IllegalBinaryDigit (ch : Char)
  | OctalLiteralExceedsMax
  | FractionalOctalLiteral
  | IllegalOctalDigit (ch : Char)
  | DecimalExponentTooLong
  | NoDecimalExponentDigits
  | HexExponentTooLong
  | NoHexExponentDigits
  deriving DecidableEq, Repr

/-- A C `double`, modelled as an exact unreduced fraction (num/den).
Operations mirror real-number arithmetic; fractions are never reduced, so all
operations are plain `Int` arithmetic and evaluate inside the kernel.  The
value of an `F64` is `F64.toRat`. -/
structure F64 where
  num : Int
  den : Int
  deriving DecidableEq, Repr

/-- Embed an integer (the C `int64_t` → `double` conversion). -/
def F64.ofInt (n : Int) : F64 := ⟨n, 1⟩

/-- Multiplication. -/
def F64.mul (a b : F64) : F64 := ⟨a.num * b.num, a.den * b.den⟩

/-- Addition. -/
def F64.add (a b : F64) : F64 := ⟨a.num * b.den + b.num * a.den, a.den * b.den⟩

/-- Division. -/
def F64.div (a b : F64) : F64 := ⟨a.num * b.den, a.den * b.num⟩

/-- `b^n` for a natural exponent. -/
def F64.powNat (b : F64) : Nat → F64
  | 0 => ⟨1, 1⟩
  | n + 1 => (F64.powNat b n).mul b

/-- C `pow(b, e)` at an integral exponent. -/
def F64.zpow (b : F64) (e : Int) : F64 :=
  if e < 0 then (F64.ofInt 1).div (b.powNat (-e).toNat) else b.powNat e.toNat

/-- The rational value of an `F64`. -/
def F64.toRat (a : F64) : ℚ := (a.num : ℚ) / (a.den : ℚ)

/-- One callback invocation made by the lexer, in order. -/
inductive Event
  | keyword (id : Int)
  | identifier (s : List Char)
  | str_literal (s : List Char)
  | int_literal (v : Int)
  | float_literal (v : F64)
  | bridge
  | end_of_statement
  | error (e : LexError) (loc : Loc)
  deriving DecidableEq, Repr

/-- `true` for the token-producing callbacks (everything except `error`). -/
def Event.isToken : Event → Bool
  | .error _ _ => false
  | _ => true

/-- `true` exactly for `error` events. -/
def Event.isError : Event → Bool
  | .error _ _ => true
  | _ => false

/-- The mutable lexer state (`struct GCodeLexer`), minus the callback pointers
(callback invocations are returned as events) and the allocation bookkeeping
(`token_limit`): `token_str` holds the `token_length` accumulated bytes. -/
structure Lexer where
  state : ScanState
  token_str : List Char
  expr_nesting : Nat
  int_value : Int
  float_value : F64
  exponent_sign : Int
  digit_count : Int
  float_fraction_multiplier : F64
  line : Nat
  column : Nat
  location : Loc
  deriving DecidableEq, Repr

/-- `INT64_MAX`. -/
def INT64_MAX : Int := 9223372036854775807

/-- `UNICODE_MAX` from gcode_lexer.c. -/
def UNICODE_MAX : Int := 0x10ffff

/-- The keyword table of gcode_keywords.generated.c, as the finite map the
generated perfect hash computes: the 27 keywords with their token ids.  Note
that `{` and `}` are *not* in the table (their `asso_values` entry is 33, so
`hash` exceeds `MAX_HASH_VALUE` and `gcode_keyword_lookup` returns 0). -/
def gcode_keyword_lookup (tok : List Char) : Option Int :=
  if tok = ['\n'] then some 262
  else if tok = ['O', 'R'] then some 263
  else if tok = ['A', 'N', 'D'] then some 264
  else if tok = ['='] then some 265
  else if tok = ['~'] then some 266
  else if tok = ['+'] then some 267
  else if tok = ['-'] then some 268
  else if tok = ['%'] then some 269
  else if tok = ['*', '*'] then some 270
  else if tok = ['*'] then some 271
  else if tok = ['/'] then some 272
  else if tok = ['<'] then some 273
  else if tok = ['>'] then some 274
  else if tok = ['<', '='] then some 275
  else if tok = ['>', '='] then some 276
  else if tok = ['!'] then some 277
  else if tok = ['I', 'F'] then some 278
  else if tok = ['E', 'L', 'S', 'E'] then some 279
  else if tok = ['.'] then some 280
  else if tok = [','] then some 281
  else if tok = ['('] then some 282
  else if tok = [')'] then some 283
  else if tok = ['N', 'A', 'N'] then some 284
  else if tok = ['I', 'N', 'F', 'I', 'N', 'I', 'T', 'Y'] then some 285
  else if tok = ['T', 'R', 'U', 'E'] then some 286
  else if tok = ['F', 'A', 'L', 'S', 'E'] then some 287
  else if tok = [Char.ofNat 255] then some 288
  else none

/-- `hex_digit_to_int` from gcode_lexer.c.  Faithful to the source, including
the third branch testing `ch <= 'Z'` (rather than `'F'`), which accepts every
upper-case letter as a "hex digit" with values 10–35. -/
def hex_digit_to_int (ch : Char) : Int :=
  if '0' ≤ ch ∧ ch ≤ '9' then (ch.toNat : Int) - ('0'.toNat : Int)
  else if 'a' ≤ ch ∧ ch ≤ 'f' then 10 + (ch.toNat : Int) - ('a'.toNat : Int)
  else if 'A' ≤ ch ∧ ch ≤ 'Z' then 10 + (ch.toNat : Int) - ('A'.toNat : Int)
  else -1

/-- `is_ident_char` from gcode_lexer.c. -/
def is_ident_char (ch : Char) : Bool :=
  ('a' ≤ ch ∧ ch ≤ 'z') ∨ ('A' ≤ ch ∧ ch ≤ 'Z') ∨ ('0' ≤ ch ∧ ch ≤ '9')
    ∨ ch = '_' ∨ ch = '$'

/-- `is_symbol_char` from gcode_lexer.c (the exact 27-character switch). -/
def is_symbol_char (ch : Char) : Bool :=
  ch ∈ ['`', '~', '!', '@', '#', '%', '^', '&', '*', '(', ')', '-', '+', '=',
        '{', '[', '}', ']', '|', '\\', ':', ',', '<', '.', '>', '?', '/']

/-- The whitespace characters of `CASE_SPACE` (space, tab, vertical tab, CR). -/
def is_space_char (ch : Char) : Bool :=
  ch ∈ [' ', '\t', Char.ofNat 0x0b, '\r']

/-- `TOKEN_CHAR_UPPER`'s upper-casing: `ch >= 'a' && ch <= 'z' ? ch - 32 : ch`. -/
def upperChar (ch : Char) : Char :=
  if 'a' ≤ ch ∧ ch ≤ 'z' then Char.ofNat (ch.toNat - 32) else ch

/-- `token_char`: append one byte to the token buffer (allocation modelled as
always succeeding). -/
def token_char (lx : Lexer) (ch : Char) : Lexer :=
  { lx with token_str := lx.token_str ++ [ch] }

/-- `free_token`: reset `token_length` to 0. -/
def free_token (lx : Lexer) : Lexer :=
  { lx with token_str := [] }

/-- `TOKEN_START`: record the token's first position (and, via the embedded
`TOKEN_STOP`, its last position) at the current line/column. -/
def tokenStart (lx : Lexer) : Lexer :=
  { lx with location := ⟨lx.line, lx.column, lx.line, lx.column + 1⟩ }

/-- `TOKEN_STOP`: update the token's last position to the current line/column. -/
def tokenStop (lx : Lexer) : Lexer :=
  { lx with location :=
      { lx.location with last_line := lx.line, last_column := lx.column + 1 } }

/-- `add_safe_digit`. -/
def add_safe_digit (lx : Lexer) (value : Int) (base : Int) : Lexer :=
  { lx with int_value := lx.int_value * base + value
            digit_count := lx.digit_count + 1 }

/-- `set_exponent`: `float_value *= pow(base, exponent_sign * int_value)`. -/
def set_exponent (lx : Lexer) (base : Int) : Lexer :=
  { lx with float_value :=
      lx.float_value.mul ((F64.ofInt base).zpow (lx.exponent_sign * lx.int_value)) }

/-- `add_float_digit`: `float_value = float_value * base + value`. -/
def add_float_digit (lx : Lexer) (value : Int) (base : Int) : Lexer :=
  { lx with float_value :=
      (lx.float_value.mul (F64.ofInt base)).add (F64.ofInt value) }

/-- `add_float_fraction_digit`: `float_fraction_multiplier /= base;
float_value += value * float_fraction_multiplier`. -/
def add_float_fraction_digit (lx : Lexer) (value : Int) (base : Int) : Lexer :=
  let m := lx.float_fraction_multiplier.div (F64.ofInt base)
  { lx with float_fraction_multiplier := m
            float_value := lx.float_value.add ((F64.ofInt value).mul m) }

/-- `digit_exceeds`: `int_value > (max - value) / base` with C integer
division (operands are non-negative at every call site, where truncating and
flooring division agree). -/
def digit_exceeds (lx : Lexer) (value : Int) (base : Int) (max : Int) : Bool :=
  lx.int_value > (max - value) / base

/-- Result of an emit helper: updated lexer, emitted events, and the C
helper's boolean result. -/
structure EmitRes where
  lx : Lexer
  evs : List Event
  ok : Bool

/-- `ERROR(...)`: attach the current location to the error, invoke the error
callback, and enter `SCAN_ERROR`. -/
def emitError (lx : Lexer) (e : LexError) : Lexer × List Event :=
  ({ lx with state := .SCAN_ERROR }, [Event.error e lx.location])

/-- `add_digit`: guarded accumulation; on overflow raise `err` and drop the
token. -/
def add_digit (lx : Lexer) (value : Int) (base : Int) (max : Int)
    (err : LexError) : EmitRes :=
  if digit_exceeds lx value base max then
    let r := emitError lx err
    ⟨free_token r.1, r.2, false⟩
  else
    ⟨add_safe_digit lx value base, [], true⟩

/-- The UTF-8 encoding of a code point, byte values as `Nat`s. -/
def utf8Bytes (n : Nat) : List Nat :=
  if n < 0x80 then [n]
  else if n < 0x800 then [0xc0 + n / 0x40, 0x80 + n % 0x40]
  else if n < 0x10000 then
    [0xe0 + n / 0x1000, 0x80 + n / 0x40 % 0x40, 0x80 + n % 0x40]
  else
    [0xf0 + n / 0x40000, 0x80 + n / 0x1000 % 0x40, 0x80 + n / 0x40 % 0x40,
     0x80 + n % 0x40]

/-- `add_str_wchar`: convert `int_value` with `wctomb` (UTF-8 locale) and
append the bytes to the token; on an unencodable value (a surrogate code
point — `\U` caps values at `UNICODE_MAX` already) `wctomb` returns -1 and a
`?` is appended instead. -/
def add_str_wchar (lx : Lexer) : Lexer :=
  let n := lx.int_value.toNat
  if 0xd800 ≤ n ∧ n ≤ 0xdfff then
    token_char lx '?'
  else
    { lx with token_str := lx.token_str ++ (utf8Bytes n).map Char.ofNat }

/-- `emit_char_symbol`: look the single character up in the keyword table (the
character is appended to the token buffer first, mirroring the source) and
emit the keyword; an unknown character raises the internal
"Attempt to emit unknown symbol" error. -/
def emit_char_symbol (lx : Lexer) (ch : Char) : EmitRes :=
  let lx := tokenStart lx
  let tok := lx.token_str ++ [ch]
  let lx := free_token lx
  match gcode_keyword_lookup tok with
  | none =>
      let r := emitError lx (.UnknownSymbolInternal ch)
      ⟨r.1, r.2, false⟩
  | some id => ⟨lx, [Event.keyword id], true⟩

/-- `emit_symbol`: look the accumulated token up in the keyword table; an
unknown run raises "Illegal operator". -/
def emit_symbol (lx : Lexer) : EmitRes :=
  let lx := tokenStop lx
  match gcode_keyword_lookup lx.token_str with
  | none =>
      let r := emitError lx (.IllegalOperator lx.token_str)
      ⟨free_token r.1, r.2, false⟩
  | some id => ⟨free_token lx, [Event.keyword id], true⟩

/-- `emit_bridge`. -/
def emit_bridge (lx : Lexer) : EmitRes :=
  ⟨tokenStart lx, [Event.bridge], true⟩

/-- `emit_end_of_statement`: the callback's result is ignored by the source;
the state becomes `SCAN_NEWLINE`. -/
def emit_end_of_statement (lx : Lexer) : Lexer × List Event :=
  ({ tokenStart lx with state := .SCAN_NEWLINE }, [Event.end_of_statement])

/-- `emit_str`: emit the token buffer as a string literal and reset it. -/
def emit_str (lx : Lexer) : EmitRes :=
  let lx := tokenStop lx
  ⟨free_token lx, [Event.str_literal lx.token_str], true⟩

/-- Sign-extending truncation of an `int64_t` to a C `int` (32 bits). -/
def truncInt32 (v : Int) : Int :=
  (v + 2 ^ 31) % 2 ^ 32 - 2 ^ 31

/-- `emit_int`: NOTE the source declares `emit_int(GCodeLexer*, int value)`
with a 32-bit `int` parameter, although every caller passes the `int64_t`
accumulator (or 0) and the `int_literal` callback takes `int64_t`; the value
therefore wraps through a sign-extending 32-bit truncation. -/
def emit_int (lx : Lexer) (value : Int) : EmitRes :=
  ⟨tokenStop lx, [Event.int_literal (truncInt32 value)], true⟩

/-- `emit_float`. -/
def emit_float (lx : Lexer) (value : F64) : EmitRes :=
  ⟨tokenStop lx, [Event.float_literal value], true⟩

/-- `emit_keyword_or_identifier`: keyword if the token is in the table,
identifier otherwise. -/
def emit_keyword_or_identifier (lx : Lexer) : EmitRes :=
  let lx := tokenStop lx
  match gcode_keyword_lookup lx.token_str with
  | none => ⟨free_token lx, [Event.identifier lx.token_str], true⟩
  | some id => ⟨free_token lx, [Event.keyword id], true⟩

/-- Result of dispatching one character in one state: updated lexer, emitted
events, and whether the source executed `BACK_UP` (re-scan the same
character). -/
structure StepRes where
  lx : Lexer
  evs : List Event
  back : Bool

/-- `case SCAN_NEWLINE` of `gcode_lexer_scan`. -/
def stepNEWLINE (lx : Lexer) (ch : Char) : StepRes :=
  if ch = 'N' ∨ ch = 'n' then ⟨{ lx with state := .SCAN_LINENO }, [], false⟩
  else if ch = ';' then ⟨{ lx with state := .SCAN_EMPTY_LINE_COMMENT }, [], false⟩
  else if ch = '\n' ∨ is_space_char ch then ⟨lx, [], false⟩
  else ⟨{ lx with state := .SCAN_STATEMENT }, [], true⟩

/-- `case SCAN_ERROR`: discard until `\n`. -/
def stepERROR (lx : Lexer) (ch : Char) : StepRes :=
  if ch = '\n' then ⟨{ lx with state := .SCAN_NEWLINE }, [], false⟩
  else ⟨lx, [], false⟩

/-- `case SCAN_LINENO`: characters other than the four handled cases are
silently dropped (the switch has no default case). -/
def stepLINENO (lx : Lexer) (ch : Char) : StepRes :=
  if ch = '\n' then ⟨{ lx with state := .SCAN_NEWLINE }, [], false⟩
  else if is_space_char ch then ⟨{ lx with state := .SCAN_AFTER_LINENO }, [], false⟩
  else if ch = ';' then ⟨{ lx with state := .SCAN_EMPTY_LINE_COMMENT }, [], false⟩
  else if ch = '{' then
    let r := emit_char_symbol lx ch
    if r.ok then ⟨{ r.lx with state := .SCAN_EXPR }, r.evs, false⟩
    else ⟨r.lx, r.evs, false⟩
  else ⟨lx, [], false⟩

/-- `case SCAN_AFTER_LINENO`. -/
def stepAFTER_LINENO (lx : Lexer) (ch : Char) : StepRes :=
  if ch = '\n' then ⟨{ lx with state := .SCAN_NEWLINE }, [], false⟩
  else if is_space_char ch then ⟨lx, [], false⟩
  else if ch = ';' then ⟨{ lx with state := .SCAN_EMPTY_LINE_COMMENT }, [], false⟩
  else ⟨{ lx with state := .SCAN_STATEMENT }, [], true⟩

/-- `case SCAN_STATEMENT`. -/
def stepSTATEMENT (lx : Lexer) (ch : Char) : StepRes :=
  if ch = '{' then
    let r := emit_char_symbol lx ch
    if r.ok then ⟨{ r.lx with state := .SCAN_EXPR, expr_nesting := 0 }, r.evs, false⟩
    else ⟨r.lx, r.evs, false⟩
  else if ch = '\n' then
    let r := emit_end_of_statement lx
    ⟨r.1, r.2, false⟩
  else if ch = ';' then ⟨{ lx with state := .SCAN_COMMENT }, [], false⟩
  else if is_space_char ch then ⟨lx, [], false⟩
  else ⟨{ tokenStart lx with state := .SCAN_WORD }, [], true⟩

/-- `case SCAN_WORD`. -/
def stepWORD (lx : Lexer) (ch : Char) : StepRes :=
  if ch = '\n' then
    let r := emit_str lx
    let r2 := emit_end_of_statement r.lx
    ⟨r2.1, r.evs ++ r2.2, false⟩
  else if is_space_char ch then
    let r := emit_str lx
    ⟨{ r.lx with state := .SCAN_STATEMENT }, r.evs, false⟩
  else if ch = ';' then
    let r := emit_str lx
    ⟨{ r.lx with state := .SCAN_COMMENT }, r.evs, false⟩
  else if ch = '{' then
    let r1 := emit_str lx
    let r2 := emit_bridge r1.lx
    let r3 := emit_char_symbol r2.lx ch
    if r3.ok then
      ⟨{ r3.lx with state := .SCAN_EXPR, expr_nesting := 0 },
       r1.evs ++ r2.evs ++ r3.evs, false⟩
    else ⟨r3.lx, r1.evs ++ r2.evs ++ r3.evs, false⟩
  else ⟨token_char lx (upperChar ch), [], false⟩

/-- `case SCAN_COMMENT`. -/
def stepCOMMENT (lx : Lexer) (ch : Char) : StepRes :=
  if ch = '\n' then
    let r := emit_end_of_statement lx
    ⟨r.1, r.2, false⟩
  else ⟨lx, [], false⟩

/-- `case SCAN_EMPTY_LINE_COMMENT`. -/
def stepEMPTY_LINE_COMMENT (lx : Lexer) (ch : Char) : StepRes :=
  if ch = '\n' then ⟨{ lx with state := .SCAN_NEWLINE }, [], false⟩
  else ⟨lx, [], false⟩

/-- `case SCAN_EXPR`. -/
def stepEXPR (lx : Lexer) (ch : Char) : StepRes :=
  if ch = '\n' then
    let r := emitError (tokenStart lx) .UnterminatedExpression
    ⟨{ r.1 with state := .SCAN_NEWLINE }, r.2, false⟩
  else if is_space_char ch then ⟨lx, [], false⟩
  else if ch = '(' then
    let r := emit_char_symbol { lx with expr_nesting := lx.expr_nesting + 1 } ch
    ⟨r.lx, r.evs, false⟩
  else if ch = ')' then
    let lx := if lx.expr_nesting ≠ 0 then
                { lx with expr_nesting := lx.expr_nesting - 1 }
              else lx
    let r := emit_char_symbol lx ch
    ⟨r.lx, r.evs, false⟩
  else if ch = '}' then
    let r := emit_char_symbol lx ch
    if r.ok then ⟨{ r.lx with state := .SCAN_AFTER_EXPR }, r.evs, false⟩
    else ⟨r.lx, r.evs, false⟩
  else if ch = '0' then
    ⟨{ tokenStart lx with state := .SCAN_NUMBER_BASE }, [], false⟩
  else if ch = Char.ofNat 39 ∨ ch = '`' then
    let r := emitError (tokenStart lx) (.UnexpectedCharacter ch)
    ⟨r.1, r.2, false⟩
  else if ch = '.' then
    ⟨{ tokenStart lx with float_value := F64.ofInt 0, float_fraction_multiplier := F64.ofInt 1, state := .SCAN_DECIMAL_FRACTION }, [], false⟩
  else if ch = '"' then
    ⟨{ tokenStart lx with state := .SCAN_STR }, [], false⟩
  else
    let lx := tokenStart lx
    if '1' ≤ ch ∧ ch ≤ '9' then
      ⟨{ lx with int_value := 0, digit_count := 0, state := .SCAN_DECIMAL },
       [], true⟩
    else if is_symbol_char ch then
      ⟨token_char { lx with state := .SCAN_SYMBOL } ch, [], false⟩
    else
      ⟨token_char { lx with state := .SCAN_IDENTIFIER } (upperChar ch), [], false⟩

/-- `case SCAN_AFTER_EXPR`: note the unconditional `BACK_UP` after the
switch — the character is always re-scanned. -/
def stepAFTER_EXPR (lx : Lexer) (ch : Char) : StepRes :=
  if ch = '\n' ∨ ch = ';' ∨ is_space_char ch then
    ⟨{ lx with state := .SCAN_STATEMENT }, [], true⟩
  else
    let r := emit_bridge lx
    if r.ok then ⟨{ r.lx with state := .SCAN_WORD }, r.evs, true⟩
    else ⟨r.lx, r.evs, true⟩

/-- `case SCAN_SYMBOL`. -/
def stepSYMBOL (lx : Lexer) (ch : Char) : StepRes :=
  if is_symbol_char ch then ⟨token_char lx ch, [], false⟩
  else
    let r := emit_symbol lx
    if ¬ r.ok then ⟨r.lx, r.evs, false⟩
    else if ch = '\n' then
      let r2 := emitError (tokenStart r.lx) .UnterminatedExpression
      ⟨{ r2.1 with state := .SCAN_NEWLINE }, r.evs ++ r2.2, false⟩
    else ⟨{ r.lx with state := .SCAN_EXPR }, r.evs, true⟩

/-- `case SCAN_IDENTIFIER`. -/
def stepIDENTIFIER (lx : Lexer) (ch : Char) : StepRes :=
  if is_ident_char ch then ⟨token_char lx (upperChar ch), [], false⟩
  else
    let r := emit_keyword_or_identifier lx
    ⟨{ r.lx with state := .SCAN_EXPR }, r.evs, true⟩

/-- `case SCAN_STR`. -/
def stepSTR (lx : Lexer) (ch : Char) : StepRes :=
  if ch = '\\' then ⟨{ lx with state := .SCAN_STR_ESCAPE }, [], false⟩
  else if ch = '"' then
    let r := emit_str lx
    ⟨{ r.lx with state := .SCAN_EXPR }, r.evs, false⟩
  else if ch = '\n' then
    let r := emitError lx .UnterminatedString
    ⟨{ free_token r.1 with state := .SCAN_NEWLINE }, r.2, false⟩
  else ⟨token_char lx ch, [], false⟩

/-- The simple escapes of `CASE_STR_ESC`. -/
def simpleEscape (ch : Char) : Option Nat :=
  if ch = 'a' then some 0x07
  else if ch = 'b' then some 0x08
  else if ch = 'e' then some 0x1b
  else if ch = 'f' then some 0x0c
  else if ch = 'n' then some 0x0a
  else if ch = 'r' then some 0x0d
  else if ch = 't' then some 0x09
  else if ch = 'v' then some 0x0b
  else if ch = '\\' then some 0x5c
  else if ch = Char.ofNat 39 then some 0x27
  else if ch = '"' then some 0x22
  else if ch = '?' then some 0x3f
  else none

/-- `case SCAN_STR_ESCAPE`. -/
def stepSTR_ESCAPE (lx : Lexer) (ch : Char) : StepRes :=
  match simpleEscape ch with
  | some b => ⟨{ token_char lx (Char.ofNat b) with state := .SCAN_STR }, [], false⟩
  | none =>
    if ch = 'x' then
      ⟨{ lx with int_value := 0, digit_count := 0, state := .SCAN_STR_HEX }, [], false⟩
    else if ch = 'u' then
      ⟨{ lx with int_value := 0, digit_count := 0, state := .SCAN_STR_LOW_UNICODE }, [], false⟩
    else if ch = 'U' then
      ⟨{ lx with int_value := 0, digit_count := 0, state := .SCAN_STR_HIGH_UNICODE }, [], false⟩
    else if ch = '\n' then
      let r := emitError lx .UnterminatedString
      ⟨{ free_token r.1 with state := .SCAN_NEWLINE }, r.2, false⟩
    else if '0' ≤ ch ∧ ch ≤ '9' then
      ⟨{ lx with int_value := 0, digit_count := 0, state := .SCAN_STR_OCTAL }, [], true⟩
    else
      let r := emitError lx (.IllegalStringEscape ch)
      ⟨free_token r.1, r.2, false⟩

/-- `case SCAN_STR_OCTAL`. -/
def stepSTR_OCTAL (lx : Lexer) (ch : Char) : StepRes :=
  if '0' ≤ ch ∧ ch ≤ '7' then
    let r := add_digit lx ((ch.toNat : Int) - ('0'.toNat : Int)) 8 255
               .OctalEscapeExceedsByte
    if r.ok ∧ r.lx.digit_count = 3 then
      ⟨{ token_char r.lx (Char.ofNat r.lx.int_value.toNat) with
         state := .SCAN_STR }, r.evs, false⟩
    else ⟨r.lx, r.evs, false⟩
  else if ch = '8' ∨ ch = '9' then
    let r := emitError lx .IllegalOctalEscapeDigit
    ⟨free_token r.1, r.2, false⟩
  else
    ⟨{ token_char lx (Char.ofNat lx.int_value.toNat) with state := .SCAN_STR },
     [], true⟩

/-- `case SCAN_STR_HEX`. -/
def stepSTR_HEX (lx : Lexer) (ch : Char) : StepRes :=
  let dv := hex_digit_to_int ch
  if dv = -1 then
    if lx.digit_count = 0 then
      let r := emitError lx .HexEscapeRequiresDigit
      ⟨free_token r.1, r.2, false⟩
    else
      ⟨{ token_char lx (Char.ofNat lx.int_value.toNat) with state := .SCAN_STR },
       [], true⟩
  else
    let r := add_digit lx dv 16 255 .HexEscapeExceedsByte
    if ¬ r.ok then ⟨{ r.lx with state := .SCAN_ERROR }, r.evs, false⟩
    else ⟨r.lx, r.evs, false⟩

/-- `case SCAN_STR_LOW_UNICODE`. -/
def stepSTR_LOW_UNICODE (lx : Lexer) (ch : Char) : StepRes :=
  let dv := hex_digit_to_int ch
  if dv = -1 then
    let r := emitError lx .LowUnicodeEscapeRequiresFourDigits
    ⟨free_token r.1, r.2, false⟩
  else
    let lx := add_safe_digit lx dv 16
    if lx.digit_count = 4 then
      ⟨{ add_str_wchar lx with state := .SCAN_STR }, [], false⟩
    else ⟨lx, [], false⟩

/-- `case SCAN_STR_HIGH_UNICODE`. -/
def stepSTR_HIGH_UNICODE (lx : Lexer) (ch : Char) : StepRes :=
  let dv := hex_digit_to_int ch
  if dv = -1 then
    let r := emitError lx .HighUnicodeEscapeRequiresEightDigits
    ⟨free_token r.1, r.2, false⟩
  else
    let r := add_digit lx dv 16 UNICODE_MAX .HighUnicodeEscapeExceedsUnicode
    if r.ok ∧ r.lx.digit_count = 8 then
      ⟨{ add_str_wchar r.lx with state := .SCAN_STR }, r.evs, false⟩
    else ⟨r.lx, r.evs, false⟩

/-- `case SCAN_NUMBER_BASE`. -/
def stepNUMBER_BASE (lx : Lexer) (ch : Char) : StepRes :=
  if ch = 'b' ∨ ch = 'B' then
    ⟨{ lx with int_value := 0, digit_count := 0, state := .SCAN_BINARY }, [], false⟩
  else if ch = 'x' ∨ ch = 'X' then
    ⟨{ lx with int_value := 0, digit_count := 0, state := .SCAN_HEX }, [], false⟩
  else if ch = '.' then
    ⟨{ lx with float_value := F64.ofInt 0, float_fraction_multiplier := F64.ofInt 1, state := .SCAN_DECIMAL_FRACTION }, [], false⟩
  else if ch = 'e' ∨ ch = 'E' then
    ⟨{ lx with float_value := F64.ofInt 0, state := .SCAN_DECIMAL_EXPONENT_SIGN }, [], false⟩
  else if '0' ≤ ch ∧ ch ≤ '9' then
    ⟨{ lx with int_value := 0, state := .SCAN_OCTAL }, [], true⟩
  else
    let r := emit_int lx 0
    ⟨{ r.lx with state := .SCAN_EXPR }, r.evs, true⟩

/-- `case SCAN_DECIMAL`.  When the next digit would push the accumulator past
`INT64_MAX` the state flips to `SCAN_DECIMAL_FLOAT` with
`float_value = int_value`; the triggering digit itself is consumed without
being accumulated (no `BACK_UP` in the source). -/
def stepDECIMAL (lx : Lexer) (ch : Char) : StepRes :=
  if ch = '.' then
    ⟨{ lx with float_value := F64.ofInt lx.int_value, float_fraction_multiplier := F64.ofInt 1, state := .SCAN_DECIMAL_FRACTION }, [], false⟩
  else if ch = 'e' ∨ ch = 'E' then
    ⟨{ lx with float_value := F64.ofInt lx.int_value, state := .SCAN_DECIMAL_EXPONENT_SIGN }, [], false⟩
  else if '0' ≤ ch ∧ ch ≤ '9' then
    if digit_exceeds lx ((ch.toNat : Int) - ('0'.toNat : Int)) 10 INT64_MAX then
      ⟨{ lx with float_value := F64.ofInt lx.int_value, state := .SCAN_DECIMAL_FLOAT }, [], false⟩
    else ⟨add_safe_digit lx ((ch.toNat : Int) - ('0'.toNat : Int)) 10, [], false⟩
  else
    let r := emit_int lx lx.int_value
    ⟨{ r.lx with state := .SCAN_EXPR }, r.evs, true⟩

/-- `case SCAN_HEX`. -/
def stepHEX (lx : Lexer) (ch : Char) : StepRes :=
  if ch = '.' then
    ⟨{ lx with float_value := F64.ofInt lx.int_value, float_fraction_multiplier := F64.ofInt 1, state := .SCAN_HEX_FRACTION }, [], false⟩
  else if ch = 'p' ∨ ch = 'P' then
    ⟨{ lx with float_value := F64.ofInt lx.int_value, state := .SCAN_HEX_EXPONENT_SIGN }, [], false⟩
  else
    let dv := hex_digit_to_int ch
    if dv ≠ -1 then
      if digit_exceeds lx dv 16 INT64_MAX then
        ⟨{ lx with float_value := F64.ofInt lx.int_value, state := .SCAN_HEX_FLOAT }, [], false⟩
      else ⟨add_safe_digit lx dv 16, [], false⟩
    else
      let r := emit_int lx lx.int_value
      ⟨{ r.lx with state := .SCAN_EXPR }, r.evs, true⟩

/-- `case SCAN_BINARY`. -/
def stepBINARY (lx : Lexer) (ch : Char) : StepRes :=
  if ch = '0' ∨ ch = '1' then
    let r := add_digit lx ((ch.toNat : Int) - ('0'.toNat : Int)) 2 INT64_MAX
               .BinaryLiteralExceedsMax
    ⟨r.lx, r.evs, false⟩
  else if ch = '.' then
    let r := emitError lx .FractionalBinaryLiteral
    ⟨r.1, r.2, false⟩
  else if '2' ≤ ch ∧ ch ≤ '9' then
    let r := emitError lx (.IllegalBinaryDigit ch)
    ⟨r.1, r.2, false⟩
  else
    let r := emit_int lx lx.int_value
    ⟨{ r.lx with state := .SCAN_EXPR }, r.evs, true⟩

/-- `case SCAN_OCTAL`. -/
def stepOCTAL (lx : Lexer) (ch : Char) : StepRes :=
  if '0' ≤ ch ∧ ch ≤ '7' then
    let r := add_digit lx ((ch.toNat : Int) - ('0'.toNat : Int)) 8 INT64_MAX
               .OctalLiteralExceedsMax
    ⟨r.lx, r.evs, false⟩
  else if ch = '.' then
    let r := emitError lx .FractionalOctalLiteral
    ⟨r.1, r.2, false⟩
  else if ch = '8' ∨ ch = '9' then
    let r := emitError lx (.IllegalOctalDigit ch)
    ⟨r.1, r.2, false⟩
  else
    let r := emit_int lx lx.int_value
    ⟨{ r.lx with state := .SCAN_EXPR }, r.evs, true⟩

/-- `case SCAN_DECIMAL_FLOAT`. -/
def stepDECIMAL_FLOAT (lx : Lexer) (ch : Char) : StepRes :=
  if ch = '.' then
    ⟨{ lx with float_fraction_multiplier := F64.ofInt 1, state := .SCAN_DECIMAL_FRACTION }, [], false⟩
  else if ch = 'e' ∨ ch = 'E' then
    ⟨{ lx with state := .SCAN_DECIMAL_EXPONENT_SIGN }, [], false⟩
  else if '0' ≤ ch ∧ ch ≤ '9' then
    ⟨add_float_digit lx ((ch.toNat : Int) - ('0'.toNat : Int)) 10, [], false⟩
  else
    let r := emit_float lx lx.float_value
    ⟨{ r.lx with state := .SCAN_EXPR }, r.evs, true⟩

/-- `case SCAN_DECIMAL_FRACTION`. -/
def stepDECIMAL_FRACTION (lx : Lexer) (ch : Char) : StepRes :=
  if ch = 'e' ∨ ch = 'E' then
    ⟨{ lx with state := .SCAN_DECIMAL_EXPONENT_SIGN }, [], false⟩
  else if '0' ≤ ch ∧ ch ≤ '9' then
    ⟨add_float_fraction_digit lx ((ch.toNat : Int) - ('0'.toNat : Int)) 10,
     [], false⟩
  else
    let r := emit_float lx lx.float_value
    ⟨{ r.lx with state := .SCAN_EXPR }, r.evs, true⟩

/-- `case SCAN_DECIMAL_EXPONENT_SIGN`. -/
def stepDECIMAL_EXPONENT_SIGN (lx : Lexer) (ch : Char) : StepRes :=
  if ch = '-' then
    ⟨{ lx with exponent_sign := -1, int_value := 0, digit_count := 0, state := .SCAN_DECIMAL_EXPONENT }, [], false⟩
  else
    ⟨{ lx with exponent_sign := 1, int_value := 0, digit_count := 0, state := .SCAN_DECIMAL_EXPONENT }, [], true⟩

/-- `case SCAN_DECIMAL_EXPONENT`. -/
def stepDECIMAL_EXPONENT (lx : Lexer) (ch : Char) : StepRes :=
  if '0' ≤ ch ∧ ch ≤ '9' then
    if lx.digit_count = 3 then
      let r := emitError lx .DecimalExponentTooLong
      ⟨r.1, r.2, false⟩
    else ⟨add_safe_digit lx ((ch.toNat : Int) - ('0'.toNat : Int)) 10, [], false⟩
  else if lx.digit_count = 0 then
    let r := emitError lx .NoDecimalExponentDigits
    ⟨r.1, r.2, false⟩
  else
    let lx := set_exponent lx 10
    let r := emit_float lx lx.float_value
    ⟨{ r.lx with state := .SCAN_EXPR }, r.evs, true⟩

/-- `case SCAN_HEX_FLOAT`. -/
def stepHEX_FLOAT (lx : Lexer) (ch : Char) : StepRes :=
  if ch = '.' then
    ⟨{ lx with float_fraction_multiplier := F64.ofInt 1, state := .SCAN_HEX_FRACTION }, [], false⟩
  else if ch = 'p' ∨ ch = 'P' then
    ⟨{ lx with state := .SCAN_HEX_EXPONENT_SIGN }, [], false⟩
  else
    let dv := hex_digit_to_int ch
    if dv ≠ -1 then ⟨add_float_digit lx dv 16, [], false⟩
    else
      let r := emit_float lx lx.float_value
      ⟨{ r.lx with state := .SCAN_EXPR }, r.evs, true⟩

/-- `case SCAN_HEX_FRACTION`. -/
def stepHEX_FRACTION (lx : Lexer) (ch : Char) : StepRes :=
  if ch = 'p' ∨ ch = 'P' then
    ⟨{ lx with state := .SCAN_HEX_EXPONENT_SIGN }, [], false⟩
  else
    let dv := hex_digit_to_int ch
    if dv ≠ -1 then ⟨add_float_fraction_digit lx dv 16, [], false⟩
    else
      let r := emit_float lx lx.float_value
      ⟨{ r.lx with state := .SCAN_EXPR }, r.evs, true⟩

/-- `case SCAN_HEX_EXPONENT_SIGN`. -/
def stepHEX_EXPONENT_SIGN (lx : Lexer) (ch : Char) : StepRes :=
  if ch = '-' then
    ⟨{ lx with exponent_sign := -1, int_value := 0, digit_count := 0, state := .SCAN_HEX_EXPONENT }, [], false⟩
  else
    ⟨{ lx with exponent_sign := 1, int_value := 0, digit_count := 0, state := .SCAN_HEX_EXPONENT }, [], true⟩

/-- `case SCAN_HEX_EXPONENT`: the exponent digits are read with
`hex_digit_to_int` (base 16), at most 2 of them, and the terminator applies
`set_exponent(lexer, 16)`. -/
def stepHEX_EXPONENT (lx : Lexer) (ch : Char) : StepRes :=
  let dv := hex_digit_to_int ch
  if dv ≠ -1 then
    if lx.digit_count = 2 then
      let r := emitError lx .HexExponentTooLong
      ⟨r.1, r.2, false⟩
    else ⟨add_safe_digit lx dv 16, [], false⟩
  else if lx.digit_count = 0 then
    let r := emitError lx .NoHexExponentDigits
    ⟨r.1, r.2, false⟩
  else
    let lx := set_exponent lx 16
    let r := emit_float lx lx.float_value
    ⟨{ r.lx with state := .SCAN_EXPR }, r.evs, true⟩

/-- The full switch of `gcode_lexer_scan`, one character in one state. -/
def scanSwitch (lx : Lexer) (ch : Char) : StepRes :=
  match lx.state with
  | .SCAN_NEWLINE => stepNEWLINE lx ch
  | .SCAN_ERROR => stepERROR lx ch
  | .SCAN_LINENO => stepLINENO lx ch
  | .SCAN_AFTER_LINENO => stepAFTER_LINENO lx ch
  | .SCAN_STATEMENT => stepSTATEMENT lx ch
  | .SCAN_WORD => stepWORD lx ch
  | .SCAN_COMMENT => stepCOMMENT lx ch
  | .SCAN_EMPTY_LINE_COMMENT => stepEMPTY_LINE_COMMENT lx ch
  | .SCAN_EXPR => stepEXPR lx ch
  | .SCAN_AFTER_EXPR => stepAFTER_EXPR lx ch
  | .SCAN_SYMBOL => stepSYMBOL lx ch
  | .SCAN_IDENTIFIER => stepIDENTIFIER lx ch
  | .SCAN_STR => stepSTR lx ch
  | .SCAN_STR_ESCAPE => stepSTR_ESCAPE lx ch
  | .SCAN_STR_OCTAL => stepSTR_OCTAL lx ch
  | .SCAN_STR_HEX => stepSTR_HEX lx ch
  | .SCAN_STR_LOW_UNICODE => stepSTR_LOW_UNICODE lx ch
  | .SCAN_STR_HIGH_UNICODE => stepSTR_HIGH_UNICODE lx ch
  | .SCAN_NUMBER_BASE => stepNUMBER_BASE lx ch
  | .SCAN_DECIMAL => stepDECIMAL lx ch
  | .SCAN_HEX => stepHEX lx ch
  | .SCAN_BINARY => stepBINARY lx ch
  | .SCAN_OCTAL => stepOCTAL lx ch
  | .SCAN_DECIMAL_FLOAT => stepDECIMAL_FLOAT lx ch
  | .SCAN_DECIMAL_FRACTION => stepDECIMAL_FRACTION lx ch
  | .SCAN_DECIMAL_EXPONENT_SIGN => stepDECIMAL_EXPONENT_SIGN lx ch
  | .SCAN_DECIMAL_EXPONENT => stepDECIMAL_EXPONENT lx ch
  | .SCAN_HEX_FLOAT => stepHEX_FLOAT lx ch
  | .SCAN_HEX_FRACTION => stepHEX_FRACTION lx ch
  | .SCAN_HEX_EXPONENT_SIGN => stepHEX_EXPONENT_SIGN lx ch
  | .SCAN_HEX_EXPONENT => stepHEX_EXPONENT lx ch

/-- The per-character bookkeeping at the top of the scan loop: `line++` and
`column = 1` on `\n`, `column++` otherwise. -/
def bumpPos (lx : Lexer) (ch : Char) : Lexer :=
  if ch = '\n' then { lx with line := lx.line + 1, column := 1 }
  else { lx with column := lx.column + 1 }

/-- The `line--` half of `BACK_UP` (the column is *not* restored by the
source; re-scanning a character bumps the column again). -/
def unbumpLine (lx : Lexer) (ch : Char) : Lexer :=
  if ch = '\n' then { lx with line := lx.line - 1 } else lx

/-- Process one input character, including any `BACK_UP` re-dispatches of the
same character.  The fuel bounds the number of dispatches; every `BACK_UP`
chain in the automaton has length at most 3 (e.g. `SCAN_AFTER_LINENO` →
`SCAN_STATEMENT` → `SCAN_WORD`), so fuel 8 is never exhausted. -/
def scanCharFuel : Nat → Lexer → Char → Lexer × List Event
  | 0, lx, _ => (lx, [])
  | fuel + 1, lx, ch =>
    let r := scanSwitch (bumpPos lx ch) ch
    if r.back then
      let p := scanCharFuel fuel (unbumpLine r.lx ch) ch
      (p.1, r.evs ++ p.2)
    else (r.lx, r.evs)

/-- Process one input character. -/
def scanChar (lx : Lexer) (ch : Char) : Lexer × List Event :=
  scanCharFuel 8 lx ch

/-- `gcode_lexer_scan`: feed a buffer through the state machine, returning
the final lexer state and the callback invocations in order. -/
def gcode_lexer_scan (lx : Lexer) : List Char → Lexer × List Event
  | [] => (lx, [])
  | ch :: rest =>
    let p := scanChar lx ch
    let q := gcode_lexer_scan p.1 rest
    (q.1, p.2 ++ q.2)

/-- Feed a sequence of chunks through the lexer, one `gcode_lexer_scan` call
per chunk, accumulating the callback invocations. -/
def scanChunks (lx : Lexer) : List (List Char) → Lexer × List Event
  | [] => (lx, [])
  | chunk :: rest =>
    let p := gcode_lexer_scan lx chunk
    let q := scanChunks p.1 rest
    (q.1, p.2 ++ q.2)

/-- The lexer state after `gcode_lexer_new` + `gcode_lexer_reset`.  The
numeric scratch fields (`int_value`, `float_value`, `exponent_sign`,
`digit_count`, `float_fraction_multiplier`) and the location are left
uninitialized by the C constructor; the model starts them at 0 (the scanner
always re-initializes them before use). -/
def initLexer : Lexer where
  state := .SCAN_NEWLINE
  token_str := []
  expr_nesting := 0
  int_value := 0
  float_value := F64.ofInt 0
  exponent_sign := 0
  digit_count := 0
  float_fraction_multiplier := F64.ofInt 0
  line := 1
  column := 0
  location := ⟨0, 0, 0, 0⟩

/-!
## AST (gcode_ast.h / gcode_ast.c)

A `GCodeNode*` sibling chain is modelled as a `List GCodeNode`; the empty list
is the NULL pointer.  A node's children pointer is the list of its child
chain.  The node type tag is determined by the variant (note: the shipped
`gcode_statement_new` and `gcode_parameter_new` never store the `type` field —
one of the draft inconsistencies in the source; the model, like
`gcode_add_child` itself, works with the tag a node is meant to carry).
-/

/-- `gcode_operator_type_t`. -/
inductive GCodeOperatorType
  | GCODE_UNKNOWN_OPERATOR
  | GCODE_AND
  | GCODE_OR
  | GCODE_EQUALS
  | GCODE_CONCAT
  | GCODE_ADD
  | GCODE_SUBTRACT
  | GCODE_MODULUS
  | GCODE_POWER
  | GCODE_MULTIPLY
  | GCODE_DIVIDE
  | GCODE_LT
  | GCODE_GT
  | GCODE_LTE
  | GCODE_GTE
  | GCODE_NOT
  | GCODE_NEGATE
  | GCODE_IFELSE
  | GCODE_LOOKUP
  deriving DecidableEq, Repr

/-- `gcode_node_type_t`. -/
inductive GCodeNodeType
  | GCODE_UNKNOWN_NODE
  | GCODE_STATEMENT
  | GCODE_PARAMETER
  | GCODE_STR
  | GCODE_BOOL
  | GCODE_INT
  | GCODE_FLOAT
  | GCODE_OPERATOR
  | GCODE_FUNCTION
  deriving DecidableEq, Repr

/-- An AST node.  Parent-capable variants hold their child chain. -/
inductive GCodeNode
  | statement (children : List GCodeNode)
  | parameter (name : List Char)
  | str (value : List Char)
  | bool (value : Bool)
  | int (value : Int)
  | float (value : ℚ)
  | operator (op : GCodeOperatorType) (children : List GCodeNode)
  | function (name : List Char) (children : List GCodeNode)

/-- The `type` field of a node. -/
def GCodeNode.nodeType : GCodeNode → GCodeNodeType
  | .statement _ => .GCODE_STATEMENT
  | .parameter _ => .GCODE_PARAMETER
  | .str _ => .GCODE_STR
  | .bool _ => .GCODE_BOOL
  | .int _ => .GCODE_INT
  | .float _ => .GCODE_FLOAT
  | .operator _ _ => .GCODE_OPERATOR
  | .function _ _ => .GCODE_FUNCTION

/-- The `children` pointer of a parent-capable node (`GCodeParentNode`);
NULL (the empty chain) for leaves. -/
def GCodeNode.children : GCodeNode → List GCodeNode
  | .statement cs => cs
  | .operator _ cs => cs
  | .function _ cs => cs
  | _ => []

/-- Store the `children` pointer of a parent-capable node; leaves are
returned unchanged (the C code never writes `children` on a leaf). -/
def GCodeNode.setChildren : GCodeNode → List GCodeNode → GCodeNode
  | .statement _, cs => .statement cs
  | .operator op _, cs => .operator op cs
  | .function n _, cs => .function n cs
  | n, _ => n

/-- The type test in `gcode_add_child`:
`parent->type != GCODE_OPERATOR && != GCODE_FUNCTION && != GCODE_STATEMENT`. -/
def GCodeNode.isParentCapable (n : GCodeNode) : Bool :=
  n.nodeType = .GCODE_OPERATOR ∨ n.nodeType = .GCODE_FUNCTION
    ∨ n.nodeType = .GCODE_STATEMENT

/-- The sibling walk in `gcode_add_child`
(`while (n->next) n = n->next; n->next = child;`): attach `child` after the
last node of the chain.  The chain is non-empty at the call site
(`p->children` was checked non-NULL); on the empty chain this returns
`child`, matching the separate `p->children = child` branch. -/
def chainAttach : List GCodeNode → List GCodeNode → List GCodeNode
  | [], child => child
  | n :: rest, child => n :: chainAttach rest child

/-- `gcode_add_child` from gcode_ast.c.  Pointers are chains; the function
reads only the head of `parent` and returns the same chain. -/
def gcode_add_child (parent child : List GCodeNode) : List GCodeNode :=
  match parent with
  | [] => []
  | p :: rest =>
    if child.isEmpty ∨ ¬ p.isParentCapable then p :: rest
    else if (p.children).isEmpty then p.setChildren child :: rest
    else p.setChildren (chainAttach p.children child) :: rest

/-!
## Queue / bridge (gcode_bridge.c)

The ring memory is modelled as a total function `Nat → RingEntry` (C memory
holding `ring_size` live slots); unoccupied slots hold whatever was there
before (`calloc` zeroing is irrelevant to the claims).  `GCodeStatementNode`
is modelled with the fields the bridge reads: `parse_statement` dereferences
`statement->command` (a field the shipped draft of gcode_ast.h does not
declare — the statement node of the newer draft; its name is the statement's
command word per spec §4.8) plus the child chain.
-/

/-- The statement node handed to `parse_statement`. -/
structure GCodeStatementNode where
  command : List Char
  children : List GCodeNode

/-- `RingEntry`: either an owned error message or an owned statement. -/
inductive RingEntry
  | error (msg : List Char)
  | statement (s : GCodeStatementNode)

/-- `struct GCodeQueue` (the parser and executor pointers are external
collaborators; the ring bookkeeping is what the claims concern). -/
structure GCodeQueue where
  size : Nat
  ring : Nat → RingEntry
  ring_pos : Nat
  ring_size : Nat

/-- The `move_length` computed by the growth path of `ring_add`
(gcode_bridge.c lines 79–80): `queue->ring_pos + queue->size -
queue->ring_size`, evaluated *after* `queue->ring_size` has been doubled, in
`size_t` arithmetic (wrapping mod 2^64). -/
def ring_add_move_length (ring_pos size new_ring_size : Nat) : Nat :=
  (ring_pos + size + (2 ^ 64 - new_ring_size % 2 ^ 64)) % 2 ^ 64

/-- The non-full path of `ring_add`: store the entry at
`(ring_pos + size) % ring_size` and bump `size`. -/
def ring_add_nofull (q : GCodeQueue) (e : RingEntry) : GCodeQueue :=
  { q with ring := fun i => if i = (q.ring_pos + q.size) % q.ring_size then e
                            else q.ring i
           size := q.size + 1 }

/-- `ring_add`.  When the ring is full the source takes the growth path,
which (a) never stores the `realloc` result back into `queue->ring` and
(b) computes `move_length` as `ring_pos + size - ring_size` *after* doubling
`ring_size`, underflowing in `size_t` (see `ring_add_move_length`); the
resulting wild copy is undefined behaviour, so the model returns `none` for
it.  The well-defined non-full path stores the entry and bumps `size`. -/
def ring_add (q : GCodeQueue) (e : RingEntry) : Option GCodeQueue :=
  if q.size = q.ring_size then none
  else some (ring_add_nofull q e)

/-- The entries logically stored in the queue, oldest first. -/
def queueContents (q : GCodeQueue) : List RingEntry :=
  (List.range q.size).map fun i => q.ring ((q.ring_pos + i) % q.ring_size)

/-- `gcode_queue_exec_next`, as a queue transformation: pop the head entry
(`slot = ring_pos % ring_size`), decrement `size`, advance `ring_pos` with
wraparound.  The popped entry is returned (`none` when the queue is empty and
the result is `GCODE_PY_EMPTY`); handing a statement entry to the interpreter
produces the host-visible result but does not touch the ring bookkeeping, so
it is not part of this model. -/
def gcode_queue_exec_next (q : GCodeQueue) : GCodeQueue × Option RingEntry :=
  if q.size = 0 then (q, none)
  else
    let slot := q.ring_pos % q.ring_size
    let entry := q.ring slot
    let pos1 := q.ring_pos + 1
    ({ q with size := q.size - 1
              ring_pos := if pos1 = q.ring_size then 0 else pos1 },
     some entry)

/-- `parse_statement` (gcode_bridge.c lines 107–114): push the statement onto
the ring with `ring_add`, then invoke the host `m112` callback iff
`!strcmp(statement->command, "M112")`.  The second component records the
`m112` invocation. -/
def parse_statement (q : GCodeQueue) (stmt : GCodeStatementNode) :
    Option GCodeQueue × Bool :=
  (ring_add q (RingEntry.statement stmt), stmt.command = "M112".toList)

/-!
## Values and `serialize` (gcode_interpreter.h / gcode_interpreter.c)
-/

/-- `GCodeVal` (`gcode_val_type_t` plus the union payload).  Dict handles are
opaque; we index them by `Nat`. -/
inductive GCodeVal
  | unknown
  | str (s : String)
  | bool (b : Bool)
  | int (v : Int)
  | float (f : ℚ)
  | dict (handle : Nat)
  deriving DecidableEq, Repr

/-- `serialize` from gcode_interpreter.c lines 136–161.  In the source the
switch arms read `GCODE_VAL_STR:`, `GCODE_VAL_BOOL:` … *without* the `case`
keyword; in C those are ordinary (goto) labels, not case labels, so the
`switch` has only the `default` case label and every call transfers to
`default`, which invokes the error callback ("Internal: Unknown value type")
and returns NULL.  `none` models the NULL return (with the accompanying error
callback). -/
def serialize (_val : GCodeVal) : Option String :=
  none

/-- The `%f` rendering of a float: six fractional digits.  (This model
truncates the seventh place toward zero; it is only applied at values with at
most six fractional decimal digits, where `printf` agrees exactly.) -/
def formatPercentF (f : ℚ) : String :=
  let a := |f|
  let ip := Int.floor a
  let ds := Nat.toDigits 10 (Int.floor ((a - ip) * 1000000)).toNat
  (if f < 0 then "-" else "") ++ toString ip ++ "." ++
    String.mk (List.replicate (6 - ds.length) '0' ++ ds)

/-- Modelled from the spec (§4.6 coercion table, row "Str"): what the claim
and the labels of `serialize` describe — identity for `Str`, "true"/"false"
for `Bool`, decimal rendering for `Int`, `%f` rendering for `Float`, and for
`Dict` the caller's serialize callback when provided, else `"<obj>"`. -/
def serializeSpec (hostSerialize : Option (Nat → String)) (val : GCodeVal) :
    Option String :=
  match val with
  | .str s => some s
  | .bool b => some (if b then "true" else "false")
  | .int v => some (toString v)
  | .float f => some (formatPercentF f)
  | .dict h =>
    match hostSerialize with
    | some f => some (f h)
    | none => some "<obj>"
  | .unknown => none

/-- The error-recovery discipline of one dispatch: if it emitted an error
event, the character was consumed (no `BACK_UP`) and the lexer was left in
the discard state `SCAN_ERROR` or directly in the fresh-line state
`SCAN_NEWLINE`. -/
def stepErrOk (r : StepRes) : Prop :=
  r.evs.any Event.isError = true →
    r.back = false ∧
      (r.lx.state = ScanState.SCAN_ERROR ∨ r.lx.state = ScanState.SCAN_NEWLINE)

/-- A lexer in expression mode (nesting 0), scratch fields reset. -/
def exprLexer : Lexer := { initLexer with state := .SCAN_EXPR }

/-- A lexer mid-way through the symbol run `@` in expression mode (the state
reached from `SCAN_EXPR` after consuming `@`). -/
def symbolAtLexer : Lexer :=
  { initLexer with state := .SCAN_SYMBOL, token_str := ['@'] }

/-- A lexer in the discard state. -/
def errorLexer : Lexer := { initLexer with state := .SCAN_ERROR }

/-- A lexer in the line-number-swallowing state. -/
def linenoLexer : Lexer := { initLexer with state := .SCAN_LINENO }

/-- An upper bound on the remaining `BACK_UP` re-dispatches from a given
state on a given character: every backup transition strictly decreases this
rank (`scanSwitch_back_rank_lt`), so a dispatch chain for one character has
at most `backRank + 1` dispatches and the fuel of `scanChar` (8) is never
exhausted (`scanChar_fuel_sufficient`). -/
def backRank (s : ScanState) (ch : Char) : Nat :=
  match s with
  | .SCAN_NEWLINE => 3
  | .SCAN_ERROR => 0
  | .SCAN_LINENO => 0
  | .SCAN_AFTER_LINENO => 3
  | .SCAN_STATEMENT => 1
  | .SCAN_WORD => 0
  | .SCAN_COMMENT => 0
  | .SCAN_EMPTY_LINE_COMMENT => 0
  | .SCAN_EXPR => if '1' ≤ ch ∧ ch ≤ '9' then 2 else 1
  | .SCAN_AFTER_EXPR => 3
  | .SCAN_SYMBOL => 3
  | .SCAN_IDENTIFIER => 3
  | .SCAN_STR => 0
  | .SCAN_STR_ESCAPE => 3
  | .SCAN_STR_OCTAL => 1
  | .SCAN_STR_HEX => 1
  | .SCAN_STR_LOW_UNICODE => 0
  | .SCAN_STR_HIGH_UNICODE => 0
  | .SCAN_NUMBER_BASE => 3
  | .SCAN_DECIMAL => if '0' ≤ ch ∧ ch ≤ '9' then 1 else 2
  | .SCAN_HEX => 3
  | .SCAN_BINARY => 3
  | .SCAN_OCTAL => if '0' ≤ ch ∧ ch ≤ '9' then 1 else 2
  | .SCAN_DECIMAL_FLOAT => 3
  | .SCAN_DECIMAL_FRACTION => 3
  | .SCAN_DECIMAL_EXPONENT_SIGN => 3
  | .SCAN_DECIMAL_EXPONENT => 2
  | .SCAN_HEX_FLOAT => 3
  | .SCAN_HEX_FRACTION => 3
  | .SCAN_HEX_EXPONENT_SIGN => 3
  | .SCAN_HEX_EXPONENT => 2

/-!
### Projection lemmas for the record-updating helpers

These keep goals small: every helper changes only a couple of fields, and the
simp set below lets the simplifier see that without expanding the `Lexer`
record.
-/

@[simp]
theorem tokenStart_state (lx : Lexer) : (tokenStart lx).state = lx.state := rfl

@[simp]
theorem tokenStart_token_str (lx : Lexer) : (tokenStart lx).token_str = lx.token_str := rfl

@[simp]
theorem tokenStart_expr_nesting (lx : Lexer) : (tokenStart lx).expr_nesting = lx.expr_nesting := rfl

@[simp]
theorem tokenStart_int_value (lx : Lexer) : (tokenStart lx).int_value = lx.int_value := rfl

@[simp]
theorem tokenStart_float_value (lx : Lexer) : (tokenStart lx).float_value = lx.float_value := rfl

@[simp]
theorem tokenStart_exponent_sign (lx : Lexer) : (tokenStart lx).exponent_sign = lx.exponent_sign := rfl

@[simp]
theorem tokenStart_digit_count (lx : Lexer) : (tokenStart lx).digit_count = lx.digit_count := rfl

@[simp]
theorem tokenStart_float_fraction_multiplier (lx : Lexer) : (tokenStart lx).float_fraction_multiplier = lx.float_fraction_multiplier := rfl

@[simp]
theorem tokenStart_line (lx : Lexer) : (tokenStart lx).line = lx.line := rfl

@[simp]
theorem tokenStart_column (lx : Lexer) : (tokenStart lx).column = lx.column := rfl

@[simp]
theorem tokenStart_location (lx : Lexer) : (tokenStart lx).location = ⟨lx.line, lx.column, lx.line, lx.column + 1⟩ := rfl

@[simp]
theorem tokenStop_state (lx : Lexer) : (tokenStop lx).state = lx.state := rfl

@[simp]
theorem tokenStop_token_str (lx : Lexer) : (tokenStop lx).token_str = lx.token_str := rfl

@[simp]
theorem tokenStop_expr_nesting (lx : Lexer) : (tokenStop lx).expr_nesting = lx.expr_nesting := rfl

@[simp]
theorem tokenStop_int_value (lx : Lexer) : (tokenStop lx).int_value = lx.int_value := rfl

@[simp]
theorem tokenStop_float_value (lx : Lexer) : (tokenStop lx).float_value = lx.float_value := rfl

@[simp]
theorem tokenStop_exponent_sign (lx : Lexer) : (tokenStop lx).exponent_sign = lx.exponent_sign := rfl

@[simp]
theorem tokenStop_digit_count (lx : Lexer) : (tokenStop lx).digit_count = lx.digit_count := rfl

@[simp]
theorem tokenStop_float_fraction_multiplier (lx : Lexer) : (tokenStop lx).float_fraction_multiplier = lx.float_fraction_multiplier := rfl

@[simp]
theorem tokenStop_line (lx : Lexer) : (tokenStop lx).line = lx.line := rfl

@[simp]
theorem tokenStop_column (lx : Lexer) : (tokenStop lx).column = lx.column := rfl

@[simp]
theorem tokenStop_location (lx : Lexer) : (tokenStop lx).location = ⟨lx.location.first_line, lx.location.first_column, lx.line, lx.column + 1⟩ := rfl

@[simp]
theorem free_token_state (lx : Lexer) : (free_token lx).state = lx.state := rfl

@[simp]
theorem free_token_token_str (lx : Lexer) : (free_token lx).token_str = [] := rfl

@[simp]
theorem free_token_expr_nesting (lx : Lexer) : (free_token lx).expr_nesting = lx.expr_nesting := rfl

@[simp]
theorem free_token_int_value (lx : Lexer) : (free_token lx).int_value = lx.int_value := rfl

@[simp]
theorem free_token_float_value (lx : Lexer) : (free_token lx).float_value = lx.float_value := rfl

@[simp]
theorem free_token_exponent_sign (lx : Lexer) : (free_token lx).exponent_sign = lx.exponent_sign := rfl

@[simp]
theorem free_token_digit_count (lx : Lexer) : (free_token lx).digit_count = lx.digit_count := rfl

@[simp]
theorem free_token_float_fraction_multiplier (lx : Lexer) : (free_token lx).float_fraction_multiplier = lx.float_fraction_multiplier := rfl

@[simp]
theorem free_token_line (lx : Lexer) : (free_token lx).line = lx.line := rfl

@[simp]
theorem free_token_column (lx : Lexer) : (free_token lx).column = lx.column := rfl

@[simp]
theorem free_token_location (lx : Lexer) : (free_token lx).location = lx.location := rfl

@[simp]
theorem token_char_state (lx : Lexer) (ch : Char) : (token_char lx ch).state = lx.state := rfl

@[simp]
theorem token_char_token_str (lx : Lexer) (ch : Char) : (token_char lx ch).token_str = lx.token_str ++ [ch] := rfl

@[simp]
theorem token_char_expr_nesting (lx : Lexer) (ch : Char) : (token_char lx ch).expr_nesting = lx.expr_nesting := rfl

@[simp]
theorem token_char_int_value (lx : Lexer) (ch : Char) : (token_char lx ch).int_value = lx.int_value := rfl

@[simp]
theorem token_char_float_value (lx : Lexer) (ch : Char) : (token_char lx ch).float_value = lx.float_value := rfl

@[simp]
theorem token_char_exponent_sign (lx : Lexer) (ch : Char) : (token_char lx ch).exponent_sign = lx.exponent_sign := rfl

@[simp]
theorem token_char_digit_count (lx : Lexer) (ch : Char) : (token_char lx ch).digit_count = lx.digit_count := rfl

@[simp]
theorem token_char_float_fraction_multiplier (lx : Lexer) (ch : Char) : (token_char lx ch).float_fraction_multiplier = lx.float_fraction_multiplier := rfl

@[simp]
theorem token_char_line (lx : Lexer) (ch : Char) : (token_char lx ch).line = lx.line := rfl

@[simp]
theorem token_char_column (lx : Lexer) (ch : Char) : (token_char lx ch).column = lx.column := rfl

@[simp]
theorem token_char_location (lx : Lexer) (ch : Char) : (token_char lx ch).location = lx.location := rfl

@[simp]
theorem add_safe_digit_state (lx : Lexer) (value base : Int) : (add_safe_digit lx value base).state = lx.state := rfl

@[simp]
theorem add_safe_digit_token_str (lx : Lexer) (value base : Int) : (add_safe_digit lx value base).token_str = lx.token_str := rfl

@[simp]
theorem add_safe_digit_expr_nesting (lx : Lexer) (value base : Int) : (add_safe_digit lx value base).expr_nesting = lx.expr_nesting := rfl

@[simp]
theorem add_safe_digit_int_value (lx : Lexer) (value base : Int) : (add_safe_digit lx value base).int_value = lx.int_value * base + value := rfl

@[simp]
theorem add_safe_digit_float_value (lx : Lexer) (value base : Int) : (add_safe_digit lx value base).float_value = lx.float_value := rfl

@[simp]
theorem add_safe_digit_exponent_sign (lx : Lexer) (value base : Int) : (add_safe_digit lx value base).exponent_sign = lx.exponent_sign := rfl

@[simp]
theorem add_safe_digit_digit_count (lx : Lexer) (value base : Int) : (add_safe_digit lx value base).digit_count = lx.digit_count + 1 := rfl

@[simp]
theorem add_safe_digit_float_fraction_multiplier (lx : Lexer) (value base : Int) : (add_safe_digit lx value base).float_fraction_multiplier = lx.float_fraction_multiplier := rfl

@[simp]
theorem add_safe_digit_line (lx : Lexer) (value base : Int) : (add_safe_digit lx value base).line = lx.line := rfl

@[simp]
theorem add_safe_digit_column (lx : Lexer) (value base : Int) : (add_safe_digit lx value base).column = lx.column := rfl

@[simp]
theorem add_safe_digit_location (lx : Lexer) (value base : Int) : (add_safe_digit lx value base).location = lx.location := rfl
@[simp]
theorem bumpPos_state (lx : Lexer) (ch : Char) : (bumpPos lx ch).state = lx.state := by
  unfold bumpPos; split <;> rfl

@[simp]
theorem bumpPos_token_str (lx : Lexer) (ch : Char) : (bumpPos lx ch).token_str = lx.token_str := by
  unfold bumpPos; split <;> rfl

@[simp]
theorem bumpPos_expr_nesting (lx : Lexer) (ch : Char) : (bumpPos lx ch).expr_nesting = lx.expr_nesting := by
  unfold bumpPos; split <;> rfl

@[simp]
theorem bumpPos_int_value (lx : Lexer) (ch : Char) : (bumpPos lx ch).int_value = lx.int_value := by
  unfold bumpPos; split <;> rfl

@[simp]
theorem bumpPos_float_value (lx : Lexer) (ch : Char) : (bumpPos lx ch).float_value = lx.float_value := by
  unfold bumpPos; split <;> rfl

@[simp]
theorem bumpPos_exponent_sign (lx : Lexer) (ch : Char) : (bumpPos lx ch).exponent_sign = lx.exponent_sign := by
  unfold bumpPos; split <;> rfl

@[simp]
theorem bumpPos_digit_count (lx : Lexer) (ch : Char) : (bumpPos lx ch).digit_count = lx.digit_count := by
  unfold bumpPos; split <;> rfl

@[simp]
theorem bumpPos_float_fraction_multiplier (lx : Lexer) (ch : Char) : (bumpPos lx ch).float_fraction_multiplier = lx.float_fraction_multiplier := by
  unfold bumpPos; split <;> rfl

@[simp]
theorem bumpPos_location (lx : Lexer) (ch : Char) : (bumpPos lx ch).location = lx.location := by
  unfold bumpPos; split <;> rfl

@[simp]
theorem unbumpLine_state (lx : Lexer) (ch : Char) : (unbumpLine lx ch).state = lx.state := by
  unfold unbumpLine; split <;> rfl

@[simp]
theorem unbumpLine_token_str (lx : Lexer) (ch : Char) : (unbumpLine lx ch).token_str = lx.token_str := by
  unfold unbumpLine; split <;> rfl

@[simp]
theorem unbumpLine_expr_nesting (lx : Lexer) (ch : Char) : (unbumpLine lx ch).expr_nesting = lx.expr_nesting := by
  unfold unbumpLine; split <;> rfl

@[simp]
theorem unbumpLine_int_value (lx : Lexer) (ch : Char) : (unbumpLine lx ch).int_value = lx.int_value := by
  unfold unbumpLine; split <;> rfl

@[simp]
theorem unbumpLine_float_value (lx : Lexer) (ch : Char) : (unbumpLine lx ch).float_value = lx.float_value := by
  unfold unbumpLine; split <;> rfl

@[simp]
theorem unbumpLine_exponent_sign (lx : Lexer) (ch : Char) : (unbumpLine lx ch).exponent_sign = lx.exponent_sign := by
  unfold unbumpLine; split <;> rfl

@[simp]
theorem unbumpLine_digit_count (lx : Lexer) (ch : Char) : (unbumpLine lx ch).digit_count = lx.digit_count := by
  unfold unbumpLine; split <;> rfl

@[simp]
theorem unbumpLine_float_fraction_multiplier (lx : Lexer) (ch : Char) : (unbumpLine lx ch).float_fraction_multiplier = lx.float_fraction_multiplier := by
  unfold unbumpLine; split <;> rfl

@[simp]
theorem unbumpLine_column (lx : Lexer) (ch : Char) : (unbumpLine lx ch).column = lx.column := by
  unfold unbumpLine; split <;> rfl

@[simp]
theorem unbumpLine_location (lx : Lexer) (ch : Char) : (unbumpLine lx ch).location = lx.location := by
  unfold unbumpLine; split <;> rfl

@[simp]
theorem emit_str_eq (lx : Lexer) :
    emit_str lx = ⟨free_token (tokenStop lx), [Event.str_literal lx.token_str], true⟩ := rfl

@[simp]
theorem emit_bridge_eq (lx : Lexer) :
    emit_bridge lx = ⟨tokenStart lx, [Event.bridge], true⟩ := rfl

@[simp]
theorem emit_end_of_statement_eq (lx : Lexer) :
    emit_end_of_statement lx =
      ({ tokenStart lx with state := .SCAN_NEWLINE }, [Event.end_of_statement]) := rfl

@[simp]
theorem emit_int_eq (lx : Lexer) (value : Int) :
    emit_int lx value = ⟨tokenStop lx, [Event.int_literal (truncInt32 value)], true⟩ := rfl

@[simp]
theorem emit_float_eq (lx : Lexer) (value : F64) :
    emit_float lx value = ⟨tokenStop lx, [Event.float_literal value], true⟩ := rfl

@[simp]
theorem emitError_eq (lx : Lexer) (e : LexError) :
    emitError lx e = ({ lx with state := .SCAN_ERROR }, [Event.error e lx.location]) := rfl

theorem emit_char_symbol_none (lx : Lexer) (ch : Char)
    (h : gcode_keyword_lookup (lx.token_str ++ [ch]) = none) :
    emit_char_symbol lx ch =
      ⟨{ free_token (tokenStart lx) with state := .SCAN_ERROR },
       [Event.error (.UnknownSymbolInternal ch) (free_token (tokenStart lx)).location],
       false⟩ := by
  unfold emit_char_symbol
  simp [h]

theorem emit_char_symbol_some (lx : Lexer) (ch : Char) (id : Int)
    (h : gcode_keyword_lookup (lx.token_str ++ [ch]) = some id) :
    emit_char_symbol lx ch = ⟨free_token (tokenStart lx), [Event.keyword id], true⟩ := by
  unfold emit_char_symbol
  simp [h]

theorem emit_symbol_none (lx : Lexer)
    (h : gcode_keyword_lookup lx.token_str = none) :
    emit_symbol lx =
      ⟨{ free_token (tokenStop lx) with state := .SCAN_ERROR },
       [Event.error (.IllegalOperator lx.token_str) (tokenStop lx).location],
       false⟩ := by
  unfold emit_symbol
  simp [h, free_token]

theorem emit_symbol_some (lx : Lexer) (id : Int)
    (h : gcode_keyword_lookup lx.token_str = some id) :
    emit_symbol lx = ⟨free_token (tokenStop lx), [Event.keyword id], true⟩ := by
  unfold emit_symbol
  simp [h]

theorem emit_keyword_or_identifier_none (lx : Lexer)
    (h : gcode_keyword_lookup lx.token_str = none) :
    emit_keyword_or_identifier lx =
      ⟨free_token (tokenStop lx), [Event.identifier lx.token_str], true⟩ := by
  unfold emit_keyword_or_identifier
  simp [h]

theorem emit_keyword_or_identifier_some (lx : Lexer) (id : Int)
    (h : gcode_keyword_lookup lx.token_str = some id) :
    emit_keyword_or_identifier lx = ⟨free_token (tokenStop lx), [Event.keyword id], true⟩ := by
  unfold emit_keyword_or_identifier
  simp [h]

theorem add_digit_exceeds (lx : Lexer) (value base max : Int) (err : LexError)
    (h : digit_exceeds lx value base max = true) :
    add_digit lx value base max err =
      ⟨{ free_token lx with state := .SCAN_ERROR }, [Event.error err lx.location], false⟩ := by
  unfold add_digit
  simp [h, free_token]

theorem add_digit_fits (lx : Lexer) (value base max : Int) (err : LexError)
    (h : digit_exceeds lx value base max = false) :
    add_digit lx value base max err = ⟨add_safe_digit lx value base, [], true⟩ := by
  unfold add_digit
  simp [h]

/-!
### The error-recovery discipline, state by state

`errOk_*` check `stepErrOk` for each state of the automaton; they combine
into `scanSwitch_errOk` and, by induction on the `BACK_UP` fuel,
`scanChar_error_state`.
-/

theorem errOk_stepNEWLINE (lx : Lexer) (ch : Char) : stepErrOk (stepNEWLINE lx ch) := by
  unfold stepErrOk stepNEWLINE
  repeat' split
  all_goals simp_all [Event.isError]

theorem errOk_stepERROR (lx : Lexer) (ch : Char) : stepErrOk (stepERROR lx ch) := by
  unfold stepErrOk stepERROR
  repeat' split
  all_goals simp_all [Event.isError]

theorem errOk_stepLINENO (lx : Lexer) (ch : Char) : stepErrOk (stepLINENO lx ch) := by
  unfold stepErrOk stepLINENO
  repeat' split
  all_goals cases hk : gcode_keyword_lookup (lx.token_str ++ ['{']) <;>
    try simp_all [Event.isError, emit_char_symbol_none, emit_char_symbol_some]

theorem errOk_stepAFTER_LINENO (lx : Lexer) (ch : Char) :
    stepErrOk (stepAFTER_LINENO lx ch) := by
  unfold stepErrOk stepAFTER_LINENO
  repeat' split
  all_goals simp_all [Event.isError]

theorem errOk_stepSTATEMENT (lx : Lexer) (ch : Char) : stepErrOk (stepSTATEMENT lx ch) := by
  unfold stepErrOk stepSTATEMENT
  repeat' split
  all_goals cases hk : gcode_keyword_lookup (lx.token_str ++ ['{']) <;>
    try simp_all [Event.isError, emit_char_symbol_none, emit_char_symbol_some]

theorem errOk_stepWORD (lx : Lexer) (ch : Char) : stepErrOk (stepWORD lx ch) := by
  unfold stepErrOk stepWORD
  repeat' split
  all_goals cases hk : gcode_keyword_lookup ([] ++ ['{']) <;>
    try simp_all [Event.isError, emit_char_symbol_none, emit_char_symbol_some]

theorem errOk_stepCOMMENT (lx : Lexer) (ch : Char) : stepErrOk (stepCOMMENT lx ch) := by
  unfold stepErrOk stepCOMMENT
  repeat' split
  all_goals simp_all [Event.isError]

theorem errOk_stepEMPTY_LINE_COMMENT (lx : Lexer) (ch : Char) :
    stepErrOk (stepEMPTY_LINE_COMMENT lx ch) := by
  unfold stepErrOk stepEMPTY_LINE_COMMENT
  repeat' split
  all_goals simp_all [Event.isError]

set_option maxHeartbeats 2000000 in
theorem errOk_stepEXPR (lx : Lexer) (ch : Char) : stepErrOk (stepEXPR lx ch) := by
  unfold stepErrOk stepEXPR
  by_cases h1 : ch = '\n'
  · simp_all [Event.isError]
  by_cases h2 : is_space_char ch
  · simp_all [Event.isError]
  by_cases h3 : ch = '('
  · cases hk : gcode_keyword_lookup (lx.token_str ++ ['(']) <;>
      simp_all [hk, emit_char_symbol_none, emit_char_symbol_some, Event.isError]
  by_cases h4 : ch = ')'
  · by_cases hn : lx.expr_nesting ≠ 0 <;>
      cases hk : gcode_keyword_lookup (lx.token_str ++ [')']) <;>
      simp_all [hk, emit_char_symbol_none, emit_char_symbol_some, Event.isError]
  by_cases h5 : ch = '}'
  · cases hk : gcode_keyword_lookup (lx.token_str ++ ['}']) <;>
      simp_all [hk, emit_char_symbol_none, emit_char_symbol_some, Event.isError]
  by_cases h6 : ch = '0'
  · simp_all [Event.isError]
  by_cases h7 : ch = Char.ofNat 39 ∨ ch = '`'
  · simp_all [Event.isError]
  by_cases h8 : ch = '.'
  · simp_all [Event.isError]
  by_cases h9 : ch = '"'
  · simp_all [Event.isError]
  by_cases h10 : '1' ≤ ch ∧ ch ≤ '9'
  · simp_all [Event.isError]
  rw [if_neg h10]
  by_cases h11 : is_symbol_char ch
  all_goals simp_all [Event.isError]

theorem errOk_stepAFTER_EXPR (lx : Lexer) (ch : Char) : stepErrOk (stepAFTER_EXPR lx ch) := by
  unfold stepErrOk stepAFTER_EXPR
  repeat' split
  all_goals simp_all [Event.isError]

theorem errOk_stepSYMBOL (lx : Lexer) (ch : Char) : stepErrOk (stepSYMBOL lx ch) := by
  unfold stepErrOk stepSYMBOL
  repeat' split
  all_goals cases hk : gcode_keyword_lookup lx.token_str <;>
    try simp_all [Event.isError, emit_symbol_none, emit_symbol_some]

theorem errOk_stepIDENTIFIER (lx : Lexer) (ch : Char) : stepErrOk (stepIDENTIFIER lx ch) := by
  unfold stepErrOk stepIDENTIFIER
  repeat' split
  all_goals cases hk : gcode_keyword_lookup lx.token_str <;>
    try simp_all [Event.isError, emit_keyword_or_identifier_none,
                  emit_keyword_or_identifier_some]

theorem errOk_stepSTR (lx : Lexer) (ch : Char) : stepErrOk (stepSTR lx ch) := by
  unfold stepErrOk stepSTR
  repeat' split
  all_goals simp_all [Event.isError]

theorem errOk_stepSTR_ESCAPE (lx : Lexer) (ch : Char) : stepErrOk (stepSTR_ESCAPE lx ch) := by
  unfold stepErrOk stepSTR_ESCAPE
  repeat' split
  all_goals simp_all [Event.isError]

theorem errOk_stepSTR_OCTAL (lx : Lexer) (ch : Char) : stepErrOk (stepSTR_OCTAL lx ch) := by
  unfold stepErrOk stepSTR_OCTAL
  repeat' split
  all_goals cases hx : digit_exceeds lx ((ch.toNat : Int) - ('0'.toNat : Int)) 8 255 <;>
    try simp_all [Event.isError, add_digit_exceeds, add_digit_fits, apply_ite]

theorem errOk_stepSTR_HEX (lx : Lexer) (ch : Char) : stepErrOk (stepSTR_HEX lx ch) := by
  unfold stepErrOk stepSTR_HEX
  repeat' split
  all_goals cases hx : digit_exceeds lx (hex_digit_to_int ch) 16 255 <;>
    try simp_all [Event.isError, add_digit_exceeds, add_digit_fits, apply_ite]

theorem errOk_stepSTR_LOW_UNICODE (lx : Lexer) (ch : Char) :
    stepErrOk (stepSTR_LOW_UNICODE lx ch) := by
  unfold stepErrOk stepSTR_LOW_UNICODE
  by_cases hd : hex_digit_to_int ch = -1
  · simp_all [Event.isError]
  by_cases h4 : lx.digit_count + 1 = 4 <;> simp_all [Event.isError]

theorem errOk_stepSTR_HIGH_UNICODE (lx : Lexer) (ch : Char) :
    stepErrOk (stepSTR_HIGH_UNICODE lx ch) := by
  unfold stepErrOk stepSTR_HIGH_UNICODE
  by_cases hd : hex_digit_to_int ch = -1
  · simp_all [Event.isError]
  by_cases hx : digit_exceeds lx (hex_digit_to_int ch) 16 UNICODE_MAX
  · simp_all [Event.isError, add_digit_exceeds]
  by_cases h8 : lx.digit_count + 1 = 8 <;>
    simp_all [Event.isError, add_digit_fits]

theorem errOk_stepNUMBER_BASE (lx : Lexer) (ch : Char) : stepErrOk (stepNUMBER_BASE lx ch) := by
  unfold stepErrOk stepNUMBER_BASE
  repeat' split
  all_goals simp_all [Event.isError]

theorem errOk_stepDECIMAL (lx : Lexer) (ch : Char) : stepErrOk (stepDECIMAL lx ch) := by
  unfold stepErrOk stepDECIMAL
  repeat' split
  all_goals simp_all [Event.isError]

theorem errOk_stepHEX (lx : Lexer) (ch : Char) : stepErrOk (stepHEX lx ch) := by
  unfold stepErrOk stepHEX
  by_cases hdot : ch = '.'
  · simp_all [Event.isError]
  by_cases hp : ch = 'p' ∨ ch = 'P'
  · simp_all [Event.isError]
  by_cases hd : hex_digit_to_int ch = -1
  · simp_all [Event.isError]
  by_cases hx : digit_exceeds lx (hex_digit_to_int ch) 16 INT64_MAX <;>
    simp_all [Event.isError]

theorem errOk_stepBINARY (lx : Lexer) (ch : Char) : stepErrOk (stepBINARY lx ch) := by
  unfold stepErrOk stepBINARY
  repeat' split
  all_goals cases hx : digit_exceeds lx ((ch.toNat : Int) - ('0'.toNat : Int)) 2 INT64_MAX <;>
    try simp_all [Event.isError, add_digit_exceeds, add_digit_fits, apply_ite]

theorem errOk_stepOCTAL (lx : Lexer) (ch : Char) : stepErrOk (stepOCTAL lx ch) := by
  unfold stepErrOk stepOCTAL
  repeat' split
  all_goals cases hx : digit_exceeds lx ((ch.toNat : Int) - ('0'.toNat : Int)) 8 INT64_MAX <;>
    try simp_all [Event.isError, add_digit_exceeds, add_digit_fits, apply_ite]

theorem errOk_stepDECIMAL_FLOAT (lx : Lexer) (ch : Char) :
    stepErrOk (stepDECIMAL_FLOAT lx ch) := by
  unfold stepErrOk stepDECIMAL_FLOAT
  repeat' split
  all_goals simp_all [Event.isError]

theorem errOk_stepDECIMAL_FRACTION (lx : Lexer) (ch : Char) :
    stepErrOk (stepDECIMAL_FRACTION lx ch) := by
  unfold stepErrOk stepDECIMAL_FRACTION
  repeat' split
  all_goals simp_all [Event.isError]

theorem errOk_stepDECIMAL_EXPONENT_SIGN (lx : Lexer) (ch : Char) :
    stepErrOk (stepDECIMAL_EXPONENT_SIGN lx ch) := by
  unfold stepErrOk stepDECIMAL_EXPONENT_SIGN
  repeat' split
  all_goals simp_all [Event.isError]

theorem errOk_stepDECIMAL_EXPONENT (lx : Lexer) (ch : Char) :
    stepErrOk (stepDECIMAL_EXPONENT lx ch) := by
  unfold stepErrOk stepDECIMAL_EXPONENT
  repeat' split
  all_goals simp_all [Event.isError]

theorem errOk_stepHEX_FLOAT (lx : Lexer) (ch : Char) : stepErrOk (stepHEX_FLOAT lx ch) := by
  unfold stepErrOk stepHEX_FLOAT
  by_cases hdot : ch = '.'
  · simp_all [Event.isError]
  by_cases hp : ch = 'p' ∨ ch = 'P'
  · simp_all [Event.isError]
  by_cases hd : hex_digit_to_int ch = -1 <;> simp_all [Event.isError]

theorem errOk_stepHEX_FRACTION (lx : Lexer) (ch : Char) :
    stepErrOk (stepHEX_FRACTION lx ch) := by
  unfold stepErrOk stepHEX_FRACTION
  by_cases hp : ch = 'p' ∨ ch = 'P'
  · simp_all [Event.isError]
  by_cases hd : hex_digit_to_int ch = -1 <;> simp_all [Event.isError]

theorem errOk_stepHEX_EXPONENT_SIGN (lx : Lexer) (ch : Char) :
    stepErrOk (stepHEX_EXPONENT_SIGN lx ch) := by
  unfold stepErrOk stepHEX_EXPONENT_SIGN
  repeat' split
  all_goals simp_all [Event.isError]

theorem errOk_stepHEX_EXPONENT (lx : Lexer) (ch : Char) :
    stepErrOk (stepHEX_EXPONENT lx ch) := by
  unfold stepErrOk stepHEX_EXPONENT
  by_cases hd : hex_digit_to_int ch = -1
  · by_cases h0 : lx.digit_count = 0 <;> simp_all [Event.isError]
  by_cases h2 : lx.digit_count = 2 <;> simp_all [Event.isError]

theorem scanSwitch_errOk (lx : Lexer) (ch : Char) : stepErrOk (scanSwitch lx ch) := by
  unfold scanSwitch
  cases lx.state
  case SCAN_NEWLINE => exact errOk_stepNEWLINE lx ch
  case SCAN_ERROR => exact errOk_stepERROR lx ch
  case SCAN_LINENO => exact errOk_stepLINENO lx ch
  case SCAN_AFTER_LINENO => exact errOk_stepAFTER_LINENO lx ch
  case SCAN_STATEMENT => exact errOk_stepSTATEMENT lx ch
  case SCAN_WORD => exact errOk_stepWORD lx ch
  case SCAN_COMMENT => exact errOk_stepCOMMENT lx ch
  case SCAN_EMPTY_LINE_COMMENT => exact errOk_stepEMPTY_LINE_COMMENT lx ch
  case SCAN_EXPR => exact errOk_stepEXPR lx ch
  case SCAN_AFTER_EXPR => exact errOk_stepAFTER_EXPR lx ch
  case SCAN_SYMBOL => exact errOk_stepSYMBOL lx ch
  case SCAN_IDENTIFIER => exact errOk_stepIDENTIFIER lx ch
  case SCAN_STR => exact errOk_stepSTR lx ch
  case SCAN_STR_ESCAPE => exact errOk_stepSTR_ESCAPE lx ch
  case SCAN_STR_OCTAL => exact errOk_stepSTR_OCTAL lx ch
  case SCAN_STR_HEX => exact errOk_stepSTR_HEX lx ch
  case SCAN_STR_LOW_UNICODE => exact errOk_stepSTR_LOW_UNICODE lx ch
  case SCAN_STR_HIGH_UNICODE => exact errOk_stepSTR_HIGH_UNICODE lx ch
  case SCAN_NUMBER_BASE => exact errOk_stepNUMBER_BASE lx ch
  case SCAN_DECIMAL => exact errOk_stepDECIMAL lx ch
  case SCAN_HEX => exact errOk_stepHEX lx ch
  case SCAN_BINARY => exact errOk_stepBINARY lx ch
  case SCAN_OCTAL => exact errOk_stepOCTAL lx ch
  case SCAN_DECIMAL_FLOAT => exact errOk_stepDECIMAL_FLOAT lx ch
  case SCAN_DECIMAL_FRACTION => exact errOk_stepDECIMAL_FRACTION lx ch
  case SCAN_DECIMAL_EXPONENT_SIGN => exact errOk_stepDECIMAL_EXPONENT_SIGN lx ch
  case SCAN_DECIMAL_EXPONENT => exact errOk_stepDECIMAL_EXPONENT lx ch
  case SCAN_HEX_FLOAT => exact errOk_stepHEX_FLOAT lx ch
  case SCAN_HEX_FRACTION => exact errOk_stepHEX_FRACTION lx ch
  case SCAN_HEX_EXPONENT_SIGN => exact errOk_stepHEX_EXPONENT_SIGN lx ch
  case SCAN_HEX_EXPONENT => exact errOk_stepHEX_EXPONENT lx ch

/-- Processing one character: if any error event was emitted, the lexer ends
in `SCAN_ERROR` or `SCAN_NEWLINE`. -/
theorem scanCharFuel_error_state (fuel : Nat) (lx : Lexer) (ch : Char)
    (h : (scanCharFuel fuel lx ch).2.any Event.isError = true) :
    (scanCharFuel fuel lx ch).1.state = ScanState.SCAN_ERROR ∨
      (scanCharFuel fuel lx ch).1.state = ScanState.SCAN_NEWLINE := by
  induction fuel generalizing lx with
  | zero => simp [scanCharFuel] at h
  | succ n ih =>
      by_cases hb : (scanSwitch (bumpPos lx ch) ch).back
      · have hne : ¬ (scanSwitch (bumpPos lx ch) ch).evs.any Event.isError = true := by
          intro hc
          have := (scanSwitch_errOk (bumpPos lx ch) ch hc).1
          rw [this] at hb
          exact Bool.false_ne_true hb
        rw [scanCharFuel] at h ⊢
        simp only [hb, if_true, List.any_append, Bool.or_eq_true] at h ⊢
        rcases h with h | h
        · exact absurd h hne
        · exact ih _ h
      · rw [scanCharFuel] at h ⊢
        simp only [hb, if_false, Bool.false_eq_true] at h ⊢
        exact (scanSwitch_errOk (bumpPos lx ch) ch h).2

/-- In the discard state, a character produces no callback; `\n` returns the
lexer to the fresh-line state and anything else stays in the discard state. -/
theorem scanChar_discard (lx : Lexer) (ch : Char)
    (h : lx.state = ScanState.SCAN_ERROR) :
    (scanChar lx ch).2 = [] ∧
      (scanChar lx ch).1.state =
        (if ch = '\n' then ScanState.SCAN_NEWLINE else ScanState.SCAN_ERROR) := by
  unfold scanChar
  rw [scanCharFuel]
  have hs : (bumpPos lx ch).state = ScanState.SCAN_ERROR := by simp [h]
  unfold scanSwitch
  rw [hs]
  unfold stepERROR
  split <;> simp_all

/-!
### Termination of `BACK_UP` chains

`backRank` strictly decreases along every `BACK_UP` re-dispatch
(`scanSwitch_back_rank`) and is at most 3, so dispatching one character
takes at most 4 dispatches; `scanCharFuel` is therefore fuel-independent
from fuel 4 on (`scanChar_fuel_sufficient`), and the fixed fuel 8 of
`scanChar` models the unbounded re-scan loop of the source faithfully.
-/

theorem char_le_iff {a b : Char} : a ≤ b ↔ a.toNat ≤ b.toNat := by
  constructor
  · intro h
    have := Char.le_def.mp h
    simpa [Char.toNat] using this
  · intro h
    rw [Char.le_def]
    simpa [Char.toNat] using h

theorem char_eq_iff {a b : Char} : a = b ↔ a.toNat = b.toNat := by
  constructor
  · intro h
    rw [h]
  · intro h
    exact le_antisymm (char_le_iff.mpr h.le) (char_le_iff.mpr h.ge)

theorem digit19_digit09 {ch : Char} (h : '1' ≤ ch ∧ ch ≤ '9') :
    '0' ≤ ch ∧ ch ≤ '9' :=
  ⟨le_trans (by decide) h.1, h.2⟩

theorem hex_none_not_digit19 {ch : Char} (h : hex_digit_to_int ch = -1) :
    ¬ ('1' ≤ ch ∧ ch ≤ '9') := by
  intro h19
  have h09 := digit19_digit09 h19
  unfold hex_digit_to_int at h
  rw [if_pos h09] at h
  have h48 : 48 ≤ ch.toNat := by
    have := char_le_iff.mp h09.1
    have c0 : Char.toNat '0' = 48 := by decide
    rwa [c0] at this
  have c0 : Char.toNat '0' = 48 := by decide
  rw [c0] at h
  omega

theorem octal_term_not_digit09 {ch : Char} (h1 : ¬ ('0' ≤ ch ∧ ch ≤ '7'))
    (h2 : ¬ (ch = '8' ∨ ch = '9')) : ¬ ('0' ≤ ch ∧ ch ≤ '9') := by
  rintro ⟨ha, hb⟩
  have h7 : ¬ ch.toNat ≤ Char.toNat '7' :=
    fun hc => h1 ⟨ha, char_le_iff.mpr hc⟩
  have ha' := char_le_iff.mp ha
  have hb' := char_le_iff.mp hb
  have c7 : Char.toNat '7' = 55 := by decide
  have c8 : Char.toNat '8' = 56 := by decide
  have c9 : Char.toNat '9' = 57 := by decide
  have c0 : Char.toNat '0' = 48 := by decide
  rw [c0] at ha'
  rw [c9] at hb'
  rw [c7] at h7
  have : ch.toNat = 56 ∨ ch.toNat = 57 := by omega
  rcases this with h | h
  · exact h2 (Or.inl (char_eq_iff.mpr (by rw [h, c8])))
  · exact h2 (Or.inr (char_eq_iff.mpr (by rw [h, c9])))

theorem backlt_stepNEWLINE (lx : Lexer) (ch : Char) :
    (stepNEWLINE lx ch).back = true →
      backRank (stepNEWLINE lx ch).lx.state ch < backRank ScanState.SCAN_NEWLINE ch := by
  unfold stepNEWLINE
  repeat' split
  all_goals simp_all [backRank]

theorem backlt_stepERROR (lx : Lexer) (ch : Char) :
    (stepERROR lx ch).back = true →
      backRank (stepERROR lx ch).lx.state ch < backRank ScanState.SCAN_ERROR ch := by
  unfold stepERROR
  repeat' split
  all_goals simp_all [backRank]

theorem backlt_stepLINENO (lx : Lexer) (ch : Char) :
    (stepLINENO lx ch).back = true →
      backRank (stepLINENO lx ch).lx.state ch < backRank ScanState.SCAN_LINENO ch := by
  unfold stepLINENO
  repeat' split
  all_goals cases hk : gcode_keyword_lookup (lx.token_str ++ ['{']) <;>
    try simp_all [backRank, emit_char_symbol_none, emit_char_symbol_some]

theorem backlt_stepAFTER_LINENO (lx : Lexer) (ch : Char) :
    (stepAFTER_LINENO lx ch).back = true →
      backRank (stepAFTER_LINENO lx ch).lx.state ch
        < backRank ScanState.SCAN_AFTER_LINENO ch := by
  unfold stepAFTER_LINENO
  repeat' split
  all_goals simp_all [backRank]

theorem backlt_stepSTATEMENT (lx : Lexer) (ch : Char) :
    (stepSTATEMENT lx ch).back = true →
      backRank (stepSTATEMENT lx ch).lx.state ch
        < backRank ScanState.SCAN_STATEMENT ch := by
  unfold stepSTATEMENT
  repeat' split
  all_goals cases hk : gcode_keyword_lookup (lx.token_str ++ ['{']) <;>
    try simp_all [backRank, emit_char_symbol_none, emit_char_symbol_some]

theorem backlt_stepWORD (lx : Lexer) (ch : Char) :
    (stepWORD lx ch).back = true →
      backRank (stepWORD lx ch).lx.state ch < backRank ScanState.SCAN_WORD ch := by
  unfold stepWORD
  repeat' split
  all_goals cases hk : gcode_keyword_lookup ([] ++ ['{']) <;>
    try simp_all [backRank, emit_char_symbol_none, emit_char_symbol_some]

theorem backlt_stepCOMMENT (lx : Lexer) (ch : Char) :
    (stepCOMMENT lx ch).back = true →
      backRank (stepCOMMENT lx ch).lx.state ch < backRank ScanState.SCAN_COMMENT ch := by
  unfold stepCOMMENT
  repeat' split
  all_goals simp_all [backRank]

theorem backlt_stepEMPTY_LINE_COMMENT (lx : Lexer) (ch : Char) :
    (stepEMPTY_LINE_COMMENT lx ch).back = true →
      backRank (stepEMPTY_LINE_COMMENT lx ch).lx.state ch
        < backRank ScanState.SCAN_EMPTY_LINE_COMMENT ch := by
  unfold stepEMPTY_LINE_COMMENT
  repeat' split
  all_goals simp_all [backRank]

set_option maxHeartbeats 2000000 in
theorem backlt_stepEXPR (lx : Lexer) (ch : Char) :
    (stepEXPR lx ch).back = true →
      backRank (stepEXPR lx ch).lx.state ch < backRank ScanState.SCAN_EXPR ch := by
  unfold stepEXPR
  by_cases h1 : ch = '\n'
  · simp_all [backRank]
  by_cases h2 : is_space_char ch
  · simp_all [backRank]
  by_cases h3 : ch = '('
  · cases hk : gcode_keyword_lookup (lx.token_str ++ ['(']) <;>
      simp_all [backRank, emit_char_symbol_none, emit_char_symbol_some]
  by_cases h4 : ch = ')'
  · by_cases hn : lx.expr_nesting ≠ 0 <;>
      cases hk : gcode_keyword_lookup (lx.token_str ++ [')']) <;>
      simp_all [backRank, emit_char_symbol_none, emit_char_symbol_some]
  by_cases h5 : ch = '}'
  · cases hk : gcode_keyword_lookup (lx.token_str ++ ['}']) <;>
      simp_all [backRank, emit_char_symbol_none, emit_char_symbol_some]
  by_cases h6 : ch = '0'
  · simp_all [backRank]
  by_cases h7 : ch = Char.ofNat 39 ∨ ch = '`'
  · simp_all [backRank]
  by_cases h8 : ch = '.'
  · simp_all [backRank]
  by_cases h9 : ch = '"'
  · simp_all [backRank]
  by_cases h10 : '1' ≤ ch ∧ ch ≤ '9'
  · have h09 := digit19_digit09 h10
    simp_all [backRank]
  rw [if_neg h10]
  by_cases h11 : is_symbol_char ch
  all_goals simp_all [backRank]

theorem backlt_stepAFTER_EXPR (lx : Lexer) (ch : Char) :
    (stepAFTER_EXPR lx ch).back = true →
      backRank (stepAFTER_EXPR lx ch).lx.state ch
        < backRank ScanState.SCAN_AFTER_EXPR ch := by
  unfold stepAFTER_EXPR
  repeat' split
  all_goals simp_all [backRank]

theorem backlt_stepSYMBOL (lx : Lexer) (ch : Char) :
    (stepSYMBOL lx ch).back = true →
      backRank (stepSYMBOL lx ch).lx.state ch < backRank ScanState.SCAN_SYMBOL ch := by
  unfold stepSYMBOL
  repeat' split
  all_goals cases hk : gcode_keyword_lookup lx.token_str <;>
    try simp_all [backRank, emit_symbol_none, emit_symbol_some]
  all_goals split <;> omega

theorem backlt_stepIDENTIFIER (lx : Lexer) (ch : Char) :
    (stepIDENTIFIER lx ch).back = true →
      backRank (stepIDENTIFIER lx ch).lx.state ch
        < backRank ScanState.SCAN_IDENTIFIER ch := by
  unfold stepIDENTIFIER
  repeat' split
  all_goals cases hk : gcode_keyword_lookup lx.token_str <;>
    try simp_all [backRank, emit_keyword_or_identifier_none,
                  emit_keyword_or_identifier_some]
  all_goals split <;> omega

theorem backlt_stepSTR (lx : Lexer) (ch : Char) :
    (stepSTR lx ch).back = true →
      backRank (stepSTR lx ch).lx.state ch < backRank ScanState.SCAN_STR ch := by
  unfold stepSTR
  repeat' split
  all_goals simp_all [backRank]

theorem backlt_stepSTR_ESCAPE (lx : Lexer) (ch : Char) :
    (stepSTR_ESCAPE lx ch).back = true →
      backRank (stepSTR_ESCAPE lx ch).lx.state ch
        < backRank ScanState.SCAN_STR_ESCAPE ch := by
  unfold stepSTR_ESCAPE
  repeat' split
  all_goals simp_all [backRank]

theorem backlt_stepSTR_OCTAL (lx : Lexer) (ch : Char) :
    (stepSTR_OCTAL lx ch).back = true →
      backRank (stepSTR_OCTAL lx ch).lx.state ch
        < backRank ScanState.SCAN_STR_OCTAL ch := by
  unfold stepSTR_OCTAL
  repeat' split
  all_goals cases hx : digit_exceeds lx ((ch.toNat : Int) - ('0'.toNat : Int)) 8 255 <;>
    try simp_all [backRank, add_digit_exceeds, add_digit_fits, apply_ite]

theorem backlt_stepSTR_HEX (lx : Lexer) (ch : Char) :
    (stepSTR_HEX lx ch).back = true →
      backRank (stepSTR_HEX lx ch).lx.state ch
        < backRank ScanState.SCAN_STR_HEX ch := by
  unfold stepSTR_HEX
  repeat' split
  all_goals cases hx : digit_exceeds lx (hex_digit_to_int ch) 16 255 <;>
    try simp_all [backRank, add_digit_exceeds, add_digit_fits, apply_ite]

theorem backlt_stepSTR_LOW_UNICODE (lx : Lexer) (ch : Char) :
    (stepSTR_LOW_UNICODE lx ch).back = true →
      backRank (stepSTR_LOW_UNICODE lx ch).lx.state ch
        < backRank ScanState.SCAN_STR_LOW_UNICODE ch := by
  unfold stepSTR_LOW_UNICODE
  by_cases hd : hex_digit_to_int ch = -1
  · simp_all [backRank]
  by_cases h4 : lx.digit_count + 1 = 4 <;> simp_all [backRank]

theorem backlt_stepSTR_HIGH_UNICODE (lx : Lexer) (ch : Char) :
    (stepSTR_HIGH_UNICODE lx ch).back = true →
      backRank (stepSTR_HIGH_UNICODE lx ch).lx.state ch
        < backRank ScanState.SCAN_STR_HIGH_UNICODE ch := by
  unfold stepSTR_HIGH_UNICODE
  by_cases hd : hex_digit_to_int ch = -1
  · simp_all [backRank]
  by_cases hx : digit_exceeds lx (hex_digit_to_int ch) 16 UNICODE_MAX
  · simp_all [backRank, add_digit_exceeds]
  by_cases h8 : lx.digit_count + 1 = 8 <;>
    simp_all [backRank, add_digit_fits]

theorem backlt_stepNUMBER_BASE (lx : Lexer) (ch : Char) :
    (stepNUMBER_BASE lx ch).back = true →
      backRank (stepNUMBER_BASE lx ch).lx.state ch
        < backRank ScanState.SCAN_NUMBER_BASE ch := by
  unfold stepNUMBER_BASE
  by_cases hb : ch = 'b' ∨ ch = 'B'
  · simp_all [backRank]
  by_cases hx : ch = 'x' ∨ ch = 'X'
  · simp_all [backRank]
  by_cases hdot : ch = '.'
  · simp_all [backRank]
  by_cases he : ch = 'e' ∨ ch = 'E'
  · simp_all [backRank]
  by_cases h09 : '0' ≤ ch ∧ ch ≤ '9'
  · simp_all [backRank]
  · have h19 : ¬ ('1' ≤ ch ∧ ch ≤ '9') := fun hh => h09 (digit19_digit09 hh)
    simp_all [backRank, if_neg h09, if_neg h19]

theorem backlt_stepDECIMAL (lx : Lexer) (ch : Char) :
    (stepDECIMAL lx ch).back = true →
      backRank (stepDECIMAL lx ch).lx.state ch < backRank ScanState.SCAN_DECIMAL ch := by
  unfold stepDECIMAL
  by_cases hdot : ch = '.'
  · simp_all [backRank]
  by_cases he : ch = 'e' ∨ ch = 'E'
  · simp_all [backRank]
  by_cases h09 : '0' ≤ ch ∧ ch ≤ '9'
  · by_cases hx : digit_exceeds lx ((ch.toNat : Int) - ('0'.toNat : Int)) 10 INT64_MAX <;>
      simp_all [backRank]
  · have h19 : ¬ ('1' ≤ ch ∧ ch ≤ '9') := fun hh => h09 (digit19_digit09 hh)
    simp_all [backRank, if_neg h09, if_neg h19]

theorem backlt_stepHEX (lx : Lexer) (ch : Char) :
    (stepHEX lx ch).back = true →
      backRank (stepHEX lx ch).lx.state ch < backRank ScanState.SCAN_HEX ch := by
  unfold stepHEX
  by_cases hdot : ch = '.'
  · simp_all [backRank]
  by_cases hp : ch = 'p' ∨ ch = 'P'
  · simp_all [backRank]
  by_cases hd : hex_digit_to_int ch = -1
  · have h19 := hex_none_not_digit19 hd
    simp_all [backRank, if_neg h19]
  by_cases hx : digit_exceeds lx (hex_digit_to_int ch) 16 INT64_MAX <;>
    simp_all [backRank]

theorem backlt_stepBINARY (lx : Lexer) (ch : Char) :
    (stepBINARY lx ch).back = true →
      backRank (stepBINARY lx ch).lx.state ch < backRank ScanState.SCAN_BINARY ch := by
  unfold stepBINARY
  repeat' split
  all_goals cases hx : digit_exceeds lx ((ch.toNat : Int) - ('0'.toNat : Int)) 2 INT64_MAX <;>
    try simp_all [backRank, add_digit_exceeds, add_digit_fits, apply_ite]
  all_goals split <;> omega

theorem backlt_stepOCTAL (lx : Lexer) (ch : Char) :
    (stepOCTAL lx ch).back = true →
      backRank (stepOCTAL lx ch).lx.state ch < backRank ScanState.SCAN_OCTAL ch := by
  unfold stepOCTAL
  by_cases h07 : '0' ≤ ch ∧ ch ≤ '7'
  · cases hx : digit_exceeds lx ((ch.toNat : Int) - ('0'.toNat : Int)) 8 INT64_MAX <;>
      simp_all [backRank, add_digit_exceeds, add_digit_fits]
  by_cases hdot : ch = '.'
  · simp_all [backRank, if_neg h07]
  by_cases h89 : ch = '8' ∨ ch = '9'
  · simp_all [backRank, if_neg h07]
  · have h09 : ¬ ('0' ≤ ch ∧ ch ≤ '9') := octal_term_not_digit09 h07 h89
    have h19 : ¬ ('1' ≤ ch ∧ ch ≤ '9') := fun hh => h09 (digit19_digit09 hh)
    simp_all [backRank, if_neg h07, if_neg h09, if_neg h19]

theorem backlt_stepDECIMAL_FLOAT (lx : Lexer) (ch : Char) :
    (stepDECIMAL_FLOAT lx ch).back = true →
      backRank (stepDECIMAL_FLOAT lx ch).lx.state ch
        < backRank ScanState.SCAN_DECIMAL_FLOAT ch := by
  unfold stepDECIMAL_FLOAT
  repeat' split
  all_goals try simp_all [backRank]
  all_goals split <;> omega

theorem backlt_stepDECIMAL_FRACTION (lx : Lexer) (ch : Char) :
    (stepDECIMAL_FRACTION lx ch).back = true →
      backRank (stepDECIMAL_FRACTION lx ch).lx.state ch
        < backRank ScanState.SCAN_DECIMAL_FRACTION ch := by
  unfold stepDECIMAL_FRACTION
  repeat' split
  all_goals try simp_all [backRank]
  all_goals split <;> omega

theorem backlt_stepDECIMAL_EXPONENT_SIGN (lx : Lexer) (ch : Char) :
    (stepDECIMAL_EXPONENT_SIGN lx ch).back = true →
      backRank (stepDECIMAL_EXPONENT_SIGN lx ch).lx.state ch
        < backRank ScanState.SCAN_DECIMAL_EXPONENT_SIGN ch := by
  unfold stepDECIMAL_EXPONENT_SIGN
  repeat' split
  all_goals simp_all [backRank]

theorem backlt_stepDECIMAL_EXPONENT (lx : Lexer) (ch : Char) :
    (stepDECIMAL_EXPONENT lx ch).back = true →
      backRank (stepDECIMAL_EXPONENT lx ch).lx.state ch
        < backRank ScanState.SCAN_DECIMAL_EXPONENT ch := by
  unfold stepDECIMAL_EXPONENT
  by_cases h09 : '0' ≤ ch ∧ ch ≤ '9'
  · by_cases h3 : lx.digit_count = 3 <;> simp_all [backRank]
  by_cases h0 : lx.digit_count = 0
  · simp_all [backRank, if_neg h09]
  · have h19 : ¬ ('1' ≤ ch ∧ ch ≤ '9') := fun hh => h09 (digit19_digit09 hh)
    simp_all [backRank, if_neg h09, if_neg h19]

theorem backlt_stepHEX_FLOAT (lx : Lexer) (ch : Char) :
    (stepHEX_FLOAT lx ch).back = true →
      backRank (stepHEX_FLOAT lx ch).lx.state ch
        < backRank ScanState.SCAN_HEX_FLOAT ch := by
  unfold stepHEX_FLOAT
  by_cases hdot : ch = '.'
  · simp_all [backRank]
  by_cases hp : ch = 'p' ∨ ch = 'P'
  · simp_all [backRank]
  by_cases hd : hex_digit_to_int ch = -1
  · have h19 := hex_none_not_digit19 hd
    simp_all [backRank, if_neg h19]
  · simp_all [backRank]

theorem backlt_stepHEX_FRACTION (lx : Lexer) (ch : Char) :
    (stepHEX_FRACTION lx ch).back = true →
      backRank (stepHEX_FRACTION lx ch).lx.state ch
        < backRank ScanState.SCAN_HEX_FRACTION ch := by
  unfold stepHEX_FRACTION
  by_cases hp : ch = 'p' ∨ ch = 'P'
  · simp_all [backRank]
  by_cases hd : hex_digit_to_int ch = -1
  · have h19 := hex_none_not_digit19 hd
    simp_all [backRank, if_neg h19]
  · simp_all [backRank]

theorem backlt_stepHEX_EXPONENT_SIGN (lx : Lexer) (ch : Char) :
    (stepHEX_EXPONENT_SIGN lx ch).back = true →
      backRank (stepHEX_EXPONENT_SIGN lx ch).lx.state ch
        < backRank ScanState.SCAN_HEX_EXPONENT_SIGN ch := by
  unfold stepHEX_EXPONENT_SIGN
  repeat' split
  all_goals simp_all [backRank]

theorem backlt_stepHEX_EXPONENT (lx : Lexer) (ch : Char) :
    (stepHEX_EXPONENT lx ch).back = true →
      backRank (stepHEX_EXPONENT lx ch).lx.state ch
        < backRank ScanState.SCAN_HEX_EXPONENT ch := by
  unfold stepHEX_EXPONENT
  by_cases hd : hex_digit_to_int ch = -1
  · by_cases h0 : lx.digit_count = 0
    · simp_all [backRank]
    · have h19 := hex_none_not_digit19 hd
      simp_all [backRank, if_neg h19]
  · by_cases h2 : lx.digit_count = 2 <;> simp_all [backRank]

/-- Every `BACK_UP` re-dispatch strictly decreases `backRank` at the
character being re-scanned. -/
theorem scanSwitch_back_rank (lx : Lexer) (ch : Char) :
    (scanSwitch lx ch).back = true →
      backRank (scanSwitch lx ch).lx.state ch < backRank lx.state ch := by
  unfold scanSwitch
  cases lx.state
  case SCAN_NEWLINE => exact backlt_stepNEWLINE lx ch
  case SCAN_ERROR => exact backlt_stepERROR lx ch
  case SCAN_LINENO => exact backlt_stepLINENO lx ch
  case SCAN_AFTER_LINENO => exact backlt_stepAFTER_LINENO lx ch
  case SCAN_STATEMENT => exact backlt_stepSTATEMENT lx ch
  case SCAN_WORD => exact backlt_stepWORD lx ch
  case SCAN_COMMENT => exact backlt_stepCOMMENT lx ch
  case SCAN_EMPTY_LINE_COMMENT => exact backlt_stepEMPTY_LINE_COMMENT lx ch
  case SCAN_EXPR => exact backlt_stepEXPR lx ch
  case SCAN_AFTER_EXPR => exact backlt_stepAFTER_EXPR lx ch
  case SCAN_SYMBOL => exact backlt_stepSYMBOL lx ch
  case SCAN_IDENTIFIER => exact backlt_stepIDENTIFIER lx ch
  case SCAN_STR => exact backlt_stepSTR lx ch
  case SCAN_STR_ESCAPE => exact backlt_stepSTR_ESCAPE lx ch
  case SCAN_STR_OCTAL => exact backlt_stepSTR_OCTAL lx ch
  case SCAN_STR_HEX => exact backlt_stepSTR_HEX lx ch
  case SCAN_STR_LOW_UNICODE => exact backlt_stepSTR_LOW_UNICODE lx ch
  case SCAN_STR_HIGH_UNICODE => exact backlt_stepSTR_HIGH_UNICODE lx ch
  case SCAN_NUMBER_BASE => exact backlt_stepNUMBER_BASE lx ch
  case SCAN_DECIMAL => exact backlt_stepDECIMAL lx ch
  case SCAN_HEX => exact backlt_stepHEX lx ch
  case SCAN_BINARY => exact backlt_stepBINARY lx ch
  case SCAN_OCTAL => exact backlt_stepOCTAL lx ch
  case SCAN_DECIMAL_FLOAT => exact backlt_stepDECIMAL_FLOAT lx ch
  case SCAN_DECIMAL_FRACTION => exact backlt_stepDECIMAL_FRACTION lx ch
  case SCAN_DECIMAL_EXPONENT_SIGN => exact backlt_stepDECIMAL_EXPONENT_SIGN lx ch
  case SCAN_DECIMAL_EXPONENT => exact backlt_stepDECIMAL_EXPONENT lx ch
  case SCAN_HEX_FLOAT => exact backlt_stepHEX_FLOAT lx ch
  case SCAN_HEX_FRACTION => exact backlt_stepHEX_FRACTION lx ch
  case SCAN_HEX_EXPONENT_SIGN => exact backlt_stepHEX_EXPONENT_SIGN lx ch
  case SCAN_HEX_EXPONENT => exact backlt_stepHEX_EXPONENT lx ch

theorem backRank_le_three (s : ScanState) (ch : Char) : backRank s ch ≤ 3 := by
  cases s <;> simp only [backRank] <;> (try split) <;> omega

/-- `scanCharFuel` does not depend on the fuel once the fuel exceeds the
`backRank` of the current state. -/
theorem scanCharFuel_congr :
    ∀ (n : Nat) (lx : Lexer) (ch : Char), backRank lx.state ch < n →
      ∀ f₁ f₂ : Nat, n ≤ f₁ → n ≤ f₂ →
        scanCharFuel f₁ lx ch = scanCharFuel f₂ lx ch := by
  intro n
  induction n with
  | zero =>
      intro lx ch h
      exact absurd h (Nat.not_lt_zero _)
  | succ n ih =>
      intro lx ch h f₁ f₂ h₁ h₂
      obtain ⟨g₁, rfl⟩ : ∃ g, f₁ = g + 1 := ⟨f₁ - 1, by omega⟩
      obtain ⟨g₂, rfl⟩ : ∃ g, f₂ = g + 1 := ⟨f₂ - 1, by omega⟩
      simp only [scanCharFuel]
      cases hbv : (scanSwitch (bumpPos lx ch) ch).back
      · simp
      · simp only [if_pos rfl]
        have hlt : backRank (scanSwitch (bumpPos lx ch) ch).lx.state ch
            < backRank lx.state ch := by
          have hh := scanSwitch_back_rank (bumpPos lx ch) ch hbv
          rwa [bumpPos_state] at hh
        have hrec :
            backRank (unbumpLine (scanSwitch (bumpPos lx ch) ch).lx ch).state ch < n := by
          rw [unbumpLine_state]
          omega
        rw [ih (unbumpLine (scanSwitch (bumpPos lx ch) ch).lx ch) ch hrec g₁ g₂
              (by omega) (by omega)]

/-- The fuel of `scanChar` is never exhausted: from fuel 4 on — in
particular at the fixed fuel 8 — `scanCharFuel` computes the same result,
so `scanChar` is a faithful rendering of the unbounded dispatch loop of
the source. -/
theorem scanChar_fuel_sufficient (fuel : Nat) (h : 4 ≤ fuel)
    (lx : Lexer) (ch : Char) : scanCharFuel fuel lx ch = scanChar lx ch := by
  unfold scanChar
  exact scanCharFuel_congr 4 lx ch
    (Nat.lt_succ_of_le (backRank_le_three lx.state ch)) fuel 8 h (by omega)

/-- `gcode_lexer_scan` distributes over buffer concatenation: scanning
`a ++ b` is scanning `a`, then scanning `b` from the state left behind. -/
theorem gcode_lexer_scan_append (lx : Lexer) (a b : List Char) :
    gcode_lexer_scan lx (a ++ b) =
      ((gcode_lexer_scan (gcode_lexer_scan lx a).1 b).1,
       (gcode_lexer_scan lx a).2 ++ (gcode_lexer_scan (gcode_lexer_scan lx a).1 b).2) := by
  induction a generalizing lx with
  | nil => simp [gcode_lexer_scan]
  | cons c rest ih =>
      simp only [List.cons_append, gcode_lexer_scan, List.append_eq]
      rw [ih]
      simp [List.append_assoc]

/-- **C1** Chunk-invariance of the lexer: for every byte sequence and every
partition of it into consecutive chunks, calling `gcode_lexer_scan` on each
chunk in order (from any starting lexer state, in particular the initial
one) produces exactly the same sequence of callback invocations — keyword,
identifier, str_literal, int_literal, float_literal, bridge,
end_of_statement, error — with the same arguments, and the same final lexer
state, as a single `gcode_lexer_scan` call on the concatenation. -/
theorem C1_chunk_invariance (lx : Lexer) (chunks : List (List Char)) :
    scanChunks lx chunks = gcode_lexer_scan lx chunks.flatten := by
  induction chunks generalizing lx with
  | nil => simp [scanChunks, gcode_lexer_scan]
  | cons c rest ih =>
      simp only [List.flatten, scanChunks]
      rw [gcode_lexer_scan_append, ih]

/-- `F64.toRat` is multiplicative. -/
theorem F64.toRat_mul (a b : F64) : (a.mul b).toRat = a.toRat * b.toRat := by
  simp only [F64.toRat, F64.mul]
  push_cast
  rw [div_mul_div_comm]

/-- `F64.toRat` commutes with division. -/
theorem F64.toRat_div (a b : F64) : (a.div b).toRat = a.toRat / b.toRat := by
  simp only [F64.toRat, F64.div]
  push_cast
  rw [div_div_eq_mul_div, div_mul_eq_mul_div, div_div]

/-- `F64.toRat` of an embedded integer. -/
@[simp]
theorem F64.toRat_ofInt (n : Int) : (F64.ofInt n).toRat = (n : ℚ) := by
  simp [F64.toRat, F64.ofInt]

/-- `F64.toRat` commutes with natural powers. -/
theorem F64.toRat_powNat (b : F64) (n : Nat) : (b.powNat n).toRat = b.toRat ^ n := by
  induction n with
  | zero => simp [F64.powNat, F64.toRat]
  | succ m ih => rw [F64.powNat, F64.toRat_mul, ih, pow_succ]

/-- `F64.toRat` commutes with integral powers (C `pow` at an integral
exponent). -/
theorem F64.toRat_zpow (b : F64) (e : Int) : (b.zpow e).toRat = b.toRat ^ e := by
  unfold F64.zpow
  split
  · rename_i hneg
    rw [F64.toRat_div, F64.toRat_ofInt, F64.toRat_powNat]
    conv_rhs => rw [show e = -((-e).toNat : Int) by omega]
    rw [zpow_neg, zpow_natCast, Int.cast_one, one_div]
  · rename_i hpos
    rw [F64.toRat_powNat, ← zpow_natCast]
    congr 1
    omega

/-- **C6** counterexample: scanning the hex float `0x1p1` in expression mode
emits `float_literal 16`, i.e. mantissa 1 times 16¹ — `SCAN_HEX_EXPONENT`
finishes with `set_exponent(lexer, 16)` — whereas the claim (base-2
exponent) predicts 1 × 2¹ = 2. -/
theorem C6_counterexample :
    (gcode_lexer_scan exprLexer "0x1p1 ".toList).2
        = [Event.float_literal (F64.ofInt 16)]
      ∧ (F64.ofInt 16).toRat ≠ (1 : ℚ) * 2 ^ (1 : Int) := by
  constructor
  · decide
  · rw [F64.toRat_ofInt]
    norm_num

/-- **C6** (amended): for every hex float literal scanned in expression mode
with a `p`/`P` exponent marker, optional `-` sign and 1 or 2 exponent
digits (read as hex digits), the emitted `float_literal` equals the mantissa
multiplied by **16** raised to the signed exponent, and a 3rd exponent digit
is an error.  Stated on the `SCAN_HEX_EXPONENT` state the marker and sign
put the lexer in: a non-digit terminator with at least one digit accumulated
emits `float_value * 16 ^ (exponent_sign * int_value)` and re-enters
expression mode; a digit arriving with two digits accumulated raises the
"Hex exponent must be 2 digits or less" error. -/
theorem C6_hex_exponent_base16 (lx : Lexer) (ch : Char)
    (hst : lx.state = ScanState.SCAN_HEX_EXPONENT) :
    (hex_digit_to_int ch = -1 → lx.digit_count ≠ 0 →
       (scanSwitch lx ch).evs =
           [Event.float_literal
             (lx.float_value.mul ((F64.ofInt 16).zpow (lx.exponent_sign * lx.int_value)))]
         ∧ (lx.float_value.mul
             ((F64.ofInt 16).zpow (lx.exponent_sign * lx.int_value))).toRat
             = lx.float_value.toRat * 16 ^ (lx.exponent_sign * lx.int_value)
         ∧ (scanSwitch lx ch).lx.state = ScanState.SCAN_EXPR
         ∧ (scanSwitch lx ch).back = true)
    ∧ (hex_digit_to_int ch ≠ -1 → lx.digit_count = 2 →
       (scanSwitch lx ch).evs =
           [Event.error LexError.HexExponentTooLong lx.location]
         ∧ (scanSwitch lx ch).lx.state = ScanState.SCAN_ERROR) := by
  constructor
  · intro hd hdc
    refine ⟨?_, ?_, ?_, ?_⟩
    · simp [scanSwitch, hst, stepHEX_EXPONENT, hd, hdc, set_exponent]
    · rw [F64.toRat_mul, F64.toRat_zpow, F64.toRat_ofInt]
      norm_num
    · simp [scanSwitch, hst, stepHEX_EXPONENT, hd, hdc, set_exponent]
    · simp [scanSwitch, hst, stepHEX_EXPONENT, hd, hdc, set_exponent]
  · intro hd hdc
    constructor
    · simp [scanSwitch, hst, stepHEX_EXPONENT, hd, hdc]
    · simp [scanSwitch, hst, stepHEX_EXPONENT, hd, hdc]

/-- **C7** counterexample: in expression mode at zero nesting, scanning
`)x ` emits the `)` keyword (id 283) and then lexes `x` as an expression
identifier `X`; no `Bridge` is emitted and the lexer does not return to word
mode, contrary to the claim. -/
theorem C7_counterexample :
    (gcode_lexer_scan exprLexer ")x ".toList).2
        = [Event.keyword 283, Event.identifier ['X']]
      ∧ Event.bridge ∉ (gcode_lexer_scan exprLexer ")x ".toList).2 := by
  constructor <;> decide

/-- **C7** (amended): a `)` seen in expression mode while the nesting counter
is zero only emits the `)` keyword and leaves the lexer in expression mode —
no `Bridge` follows.  The emit-`Bridge`-and-return-to-word-mode behaviour
belongs to the post-expression state `SCAN_AFTER_EXPR` (entered when the `}`
keyword is emitted successfully): there the next character, unless
whitespace, newline or `;`, emits a `Bridge` and switches to word mode,
re-scanning that character; whitespace, newline or `;` returns to statement
mode with no `Bridge`. -/
theorem C7_after_expr_bridge (lx : Lexer) (ch : Char) :
    (lx.state = ScanState.SCAN_EXPR → lx.expr_nesting = 0 → lx.token_str = [] →
       (scanSwitch lx ')').evs = [Event.keyword 283]
         ∧ (scanSwitch lx ')').lx.state = ScanState.SCAN_EXPR
         ∧ (scanSwitch lx ')').back = false)
    ∧ (lx.state = ScanState.SCAN_AFTER_EXPR →
        ¬(ch = '\n' ∨ ch = ';' ∨ is_space_char ch = true) →
       (scanSwitch lx ch).evs = [Event.bridge]
         ∧ (scanSwitch lx ch).lx.state = ScanState.SCAN_WORD
         ∧ (scanSwitch lx ch).back = true)
    ∧ (lx.state = ScanState.SCAN_AFTER_EXPR →
        (ch = '\n' ∨ ch = ';' ∨ is_space_char ch = true) →
       (scanSwitch lx ch).evs = []
         ∧ (scanSwitch lx ch).lx.state = ScanState.SCAN_STATEMENT
         ∧ (scanSwitch lx ch).back = true) := by
  refine ⟨?_, ?_, ?_⟩
  · intro hst hn htok
    have hk : gcode_keyword_lookup (lx.token_str ++ [')']) = some 283 := by
      rw [htok]; decide
    refine ⟨?_, ?_, ?_⟩ <;>
      simp [scanSwitch, hst, stepEXPR, hn, is_space_char,
            emit_char_symbol_some _ _ _ hk]
  · intro hst hch
    refine ⟨?_, ?_, ?_⟩ <;> simp_all [scanSwitch, stepAFTER_EXPR]
  · intro hst hch
    refine ⟨?_, ?_, ?_⟩ <;> simp_all [scanSwitch, stepAFTER_EXPR]

/-- **C8** counterexample: from the symbol-run state holding `@` (reached in
expression mode), the byte `\n` raises the "Illegal operator" error while
consuming the `\n`, and the lexer stays in the discard state: the whole
following line `G1` is discarded, producing no token callbacks at all —
although on a fresh line `G1\n` lexes to a string literal and an
end-of-statement.  The statement following the error is therefore *not*
lexed as it would be on a fresh line, contrary to the claim. -/
theorem C8_counterexample :
    (gcode_lexer_scan symbolAtLexer "\nG1\n".toList).2.filter Event.isToken = []
      ∧ (gcode_lexer_scan symbolAtLexer "\nG1\n".toList).2.any Event.isError = true
      ∧ (gcode_lexer_scan initLexer "G1\n".toList).2.filter Event.isToken
          = [Event.str_literal ['G', '1'], Event.end_of_statement]
      ∧ ([] : List Event) ≠ [Event.str_literal ['G', '1'], Event.end_of_statement] := by
  refine ⟨?_, ?_, ?_, ?_⟩ <;> decide

/-- **C8** (amended): after any invocation of the error callback the lexer is
in the discard state `SCAN_ERROR` or already in the fresh-line state
`SCAN_NEWLINE` (the sites that raise an error on the statement's own `\n`
reset directly); in the discard state every byte is dropped with no token
callback until a `\n` returns the lexer to the fresh-line state.
Consequently, when an error consumes a `\n` without resetting (e.g. the
illegal-operator error raised by a newline terminating a symbol run), the
entire following line is also discarded. -/
theorem C8_error_recovery (lx : Lexer) (ch : Char) :
    ((scanChar lx ch).2.any Event.isError = true →
       (scanChar lx ch).1.state = ScanState.SCAN_ERROR ∨
         (scanChar lx ch).1.state = ScanState.SCAN_NEWLINE)
    ∧ (lx.state = ScanState.SCAN_ERROR →
       (scanChar lx ch).2 = []
         ∧ (scanChar lx ch).1.state =
             (if ch = '\n' then ScanState.SCAN_NEWLINE else ScanState.SCAN_ERROR)) := by
  constructor
  · exact scanCharFuel_error_state 8 lx ch
  · exact scanChar_discard lx ch

/-- **C9** counterexample: the line `N{1} X\n` does not have its leading run
discarded up to the first whitespace with the rest lexed normally (which
would produce the word `X` and an end-of-statement): the `{` inside the run
takes the lexer into the `{`-emission path, which fails against the shipped
keyword table (no `{` entry) and discards the entire line after raising an
internal error.  A lexed `" X\n"` line is shown for contrast. -/
theorem C9_counterexample :
    (gcode_lexer_scan initLexer "N{1} X\n".toList).2.filter Event.isToken = []
      ∧ (gcode_lexer_scan initLexer "N{1} X\n".toList).2.any Event.isError = true
      ∧ (gcode_lexer_scan initLexer " X\n".toList).2.filter Event.isToken
          = [Event.str_literal ['X'], Event.end_of_statement] := by
  refine ⟨?_, ?_, ?_⟩ <;> decide

/-- **C9** (amended): for every input line whose first non-blank character is
`N` or `n`, the lexer enters `SCAN_LINENO` and silently discards every
following character — digit or not — up to the next whitespace, `;`,
newline, **or `{`**: whitespace moves to the after-line-number state, `;` to
the comment state, `\n` back to the fresh-line state, all without emitting
any token; a `{` in the run instead triggers the `{`-keyword emission path,
which with the shipped keyword table raises an internal "unknown symbol"
error and discards the rest of the line. -/
theorem C9_lineno_swallow (lx : Lexer) (ch : Char) (cs : List Char) :
    (lx.state = ScanState.SCAN_LINENO →
        ¬(ch = '\n' ∨ is_space_char ch = true ∨ ch = ';' ∨ ch = '{') →
       scanSwitch lx ch = ⟨lx, [], false⟩)
    ∧ (lx.state = ScanState.SCAN_LINENO → is_space_char ch = true →
       scanSwitch lx ch = ⟨{ lx with state := .SCAN_AFTER_LINENO }, [], false⟩)
    ∧ (lx.state = ScanState.SCAN_LINENO → ch = ';' →
       scanSwitch lx ch = ⟨{ lx with state := .SCAN_EMPTY_LINE_COMMENT }, [], false⟩)
    ∧ (lx.state = ScanState.SCAN_LINENO → ch = '\n' →
       scanSwitch lx ch = ⟨{ lx with state := .SCAN_NEWLINE }, [], false⟩)
    ∧ (lx.state = ScanState.SCAN_NEWLINE → (ch = 'N' ∨ ch = 'n') →
       scanSwitch lx ch = ⟨{ lx with state := .SCAN_LINENO }, [], false⟩)
    ∧ (lx.state = ScanState.SCAN_LINENO → lx.token_str = [] →
       (scanSwitch lx '{').evs =
           [Event.error (.UnknownSymbolInternal '{')
             ⟨lx.line, lx.column, lx.line, lx.column + 1⟩]
         ∧ (scanSwitch lx '{').lx.state = ScanState.SCAN_ERROR)
    ∧ (lx.state = ScanState.SCAN_LINENO →
        (∀ c ∈ cs, ¬(c = '\n' ∨ is_space_char c = true ∨ c = ';' ∨ c = '{')) →
       (gcode_lexer_scan lx cs).2 = []
         ∧ (gcode_lexer_scan lx cs).1.state = ScanState.SCAN_LINENO) := by
  refine ⟨?_, ?_, ?_, ?_, ?_, ?_, ?_⟩
  · intro hst hch
    push_neg at hch
    simp [scanSwitch, hst, stepLINENO, hch.1, hch.2.1, hch.2.2.1, hch.2.2.2]
  · intro hst hch
    have hn : ¬ ch = '\n' := by rintro rfl; simp [is_space_char] at hch
    simp [scanSwitch, hst, stepLINENO, hch, hn]
  · intro hst hch
    subst hch
    simp [scanSwitch, hst, stepLINENO, is_space_char]
  · intro hst hch
    subst hch
    simp [scanSwitch, hst, stepLINENO]
  · intro hst hch
    simp [scanSwitch, hst, stepNEWLINE, hch]
  · intro hst htok
    have hk : gcode_keyword_lookup (lx.token_str ++ ['{']) = none := by
      rw [htok]; decide
    constructor <;>
      simp [scanSwitch, hst, stepLINENO, is_space_char,
            emit_char_symbol_none _ _ hk]
  · intro hst hcs
    induction cs generalizing lx with
    | nil => simp [gcode_lexer_scan, hst]
    | cons c rest ih =>
        have hc := hcs c (List.mem_cons_self c rest)
        push_neg at hc
        have hstep : scanChar lx c = (bumpPos lx c, []) := by
          unfold scanChar
          rw [scanCharFuel]
          simp [scanSwitch, hst, stepLINENO, hc.1, hc.2.1, hc.2.2.1, hc.2.2.2]
        rw [gcode_lexer_scan]
        simp only [hstep]
        exact ih (bumpPos lx c) (by simp [hst])
          (fun c2 h2 => hcs c2 (List.mem_cons_of_mem c h2))

/-- **C4**: evaluation at the decisive inputs.  First conjunct (the claim's
first half, which the code satisfies): scanning the decimal literal
`9223372036854775808` (= `i64::MAX + 1`) in expression mode raises no error
and emits a `float_literal` — the 19th digit would overflow, so the
accumulator is converted to float and scanning continues in decimal-float
mode (the triggering digit itself is dropped by the source, hence the value
922337203685477580).  Remaining conjuncts (the claim's second half, which
the code violates): the decimal digit string `4294967296` fits in `i64`,
yet the emitted `int_literal` is 0, because `emit_int` narrows the `int64_t`
accumulator through its 32-bit `int` parameter. -/
theorem C4_decimal_overflow_and_truncation :
    (gcode_lexer_scan exprLexer "9223372036854775808 ".toList).2
        = [Event.float_literal (F64.ofInt 922337203685477580)]
      ∧ (gcode_lexer_scan exprLexer "4294967296 ".toList).2 = [Event.int_literal 0]
      ∧ (4294967296 : Int) ≤ INT64_MAX
      ∧ (0 : Int) ≠ 4294967296 := by
  refine ⟨?_, ?_, ?_, ?_⟩ <;> decide

/-- **C5**: evaluation at the failing input.  The source's `serialize`
switch lacks the `case` keyword on every arm, so every value — here the
plain string value `"x"` — falls through to `default`, which raises
"Internal: Unknown value type" and returns NULL (`none`); the coercion table
of the spec (`serializeSpec`) returns the string itself. -/
theorem C5_serialize_always_fails :
    serialize (GCodeVal.str "x") = none
      ∧ serializeSpec none (GCodeVal.str "x") = some "x" :=
  ⟨rfl, rfl⟩

/-- Pushing into a non-full ring appends the entry at the logical tail. -/
theorem queueContents_ring_add_nofull (q : GCodeQueue) (e : RingEntry)
    (_hp : q.ring_pos < q.ring_size) (hs : q.size < q.ring_size) :
    queueContents (ring_add_nofull q e) = queueContents q ++ [e] := by
  unfold queueContents ring_add_nofull
  simp only
  rw [List.range_succ, List.map_append]
  congr 1
  · apply List.map_congr_left
    intro i hi
    rw [List.mem_range] at hi
    have hne : (q.ring_pos + i) % q.ring_size ≠ (q.ring_pos + q.size) % q.ring_size := by
      intro hmod
      have h2 : i % q.ring_size = q.size % q.ring_size :=
        Nat.ModEq.add_left_cancel' q.ring_pos hmod
      rw [Nat.mod_eq_of_lt (lt_trans hi hs), Nat.mod_eq_of_lt hs] at h2
      omega
    simp [hne]
  · simp

/-- Popping a non-empty queue removes exactly the oldest entry. -/
theorem queue_pop_oldest (q : GCodeQueue)
    (hp : q.ring_pos < q.ring_size) (h0 : 0 < q.size) :
    (gcode_queue_exec_next q).2 = some (q.ring q.ring_pos)
      ∧ (queueContents q).head? = some (q.ring q.ring_pos)
      ∧ queueContents (gcode_queue_exec_next q).1 = (queueContents q).tail
      ∧ (gcode_queue_exec_next q).1.size = q.size - 1 := by
  obtain ⟨m, hm⟩ : ∃ m, q.size = m + 1 := ⟨q.size - 1, by omega⟩
  have hmod : q.ring_pos % q.ring_size = q.ring_pos := Nat.mod_eq_of_lt hp
  have hcont : queueContents q =
      q.ring q.ring_pos ::
        (List.range m).map (fun i => q.ring ((q.ring_pos + (i + 1)) % q.ring_size)) := by
    unfold queueContents
    rw [hm, List.range_succ_eq_map]
    simp only [List.map_cons, List.map_map]
    rw [Nat.add_zero, hmod]
    rfl
  unfold gcode_queue_exec_next
  rw [if_neg (by omega)]
  refine ⟨by simp [hmod], ?_, ?_, by simp⟩
  · rw [hcont]; rfl
  · rw [hcont]
    unfold queueContents
    simp only [List.tail_cons, hm, Nat.add_sub_cancel]
    apply List.map_congr_left
    intro i hi
    by_cases hw : q.ring_pos + 1 = q.ring_size
    · simp only [hw, if_true]
      rw [show q.ring_pos + (i + 1) = q.ring_size + i by omega]
      simp [Nat.add_mod_left]
    · simp only [hw, if_false]
      rw [show q.ring_pos + 1 + i = q.ring_pos + (i + 1) by omega]

/-- **C2**: evaluation of the queue operations.  The first three conjuncts
are the parts of the claim the code satisfies as long as no growth happens:
a push into a non-full ring appends the entry (FIFO order and the `size`
bookkeeping), and a pop removes exactly the oldest entry.  The final
conjuncts expose the growth bug: when `ring_add` finds the ring full
(`ring_size` 32, 32 entries stored, `ring_pos` 0), the source computes
`move_length = ring_pos + size - ring_size` *after* doubling `ring_size` to
64, which underflows in `size_t` to 2⁶⁴ − 32 — far beyond the `2 * ring_size
= 128` entries just allocated, so the relocation loop writes wildly out of
bounds (and `queue->ring` is never updated to the reallocated block);
contents are not preserved.  The model therefore leaves the growth path
undefined (`ring_add` returns `none` on a full ring). -/
theorem C2_queue_fifo_and_growth_bug (q : GCodeQueue) (e : RingEntry)
    (hp : q.ring_pos < q.ring_size) :
    (q.size < q.ring_size →
       ring_add q e = some (ring_add_nofull q e)
         ∧ queueContents (ring_add_nofull q e) = queueContents q ++ [e]
         ∧ (ring_add_nofull q e).size = q.size + 1)
    ∧ (0 < q.size →
       (gcode_queue_exec_next q).2 = (queueContents q).head?
         ∧ queueContents (gcode_queue_exec_next q).1 = (queueContents q).tail
         ∧ (gcode_queue_exec_next q).1.size = q.size - 1)
    ∧ (q.size = q.ring_size → ring_add q e = none)
    ∧ ring_add_move_length 0 32 64 = 2 ^ 64 - 32
    ∧ 2 * 64 < ring_add_move_length 0 32 64 := by
  refine ⟨?_, ?_, ?_, ?_, ?_⟩
  · intro hs
    refine ⟨?_, queueContents_ring_add_nofull q e hp hs, rfl⟩
    unfold ring_add
    rw [if_neg (by omega)]
  · intro h0
    obtain ⟨h1, h2, h3, h4⟩ := queue_pop_oldest q hp h0
    exact ⟨h1.trans h2.symm, h3, h4⟩
  · intro hs
    unfold ring_add
    rw [if_pos hs]
  · norm_num [ring_add_move_length]
  · norm_num [ring_add_move_length]

/-- **C3**: for every statement delivered to the bridge's statement callback,
`parse_statement` first pushes the statement entry onto the ring and then
invokes the host `m112` callback exactly when the command name is the
literal `"M112"` — at parse time, within the callback itself, before any
`gcode_queue_exec_next` has popped the entry; for any other command name the
`m112` callback is not invoked.  (The push hypotheses exclude the full-ring
growth path, whose breakage is claim C2's subject.) -/
theorem C3_m112_at_parse_time (q : GCodeQueue) (stmt : GCodeStatementNode)
    (hp : q.ring_pos < q.ring_size) (hs : q.size < q.ring_size) :
    ((parse_statement q stmt).2 = true ↔ stmt.command = "M112".toList)
      ∧ (parse_statement q stmt).1 = some (ring_add_nofull q (RingEntry.statement stmt))
      ∧ queueContents (ring_add_nofull q (RingEntry.statement stmt))
          = queueContents q ++ [RingEntry.statement stmt] := by
  refine ⟨?_, ?_, ?_⟩
  · unfold parse_statement
    simp
  · unfold parse_statement ring_add
    rw [if_neg (by omega)]
  · exact queueContents_ring_add_nofull q _ hp hs

/-- The inline sibling walk of `gcode_add_child` is chain concatenation. -/
theorem chainAttach_eq_append (xs c : List GCodeNode) : chainAttach xs c = xs ++ c := by
  induction xs with
  | nil => rfl
  | cons x rest ih => simp [chainAttach, ih]

/-- **C10**: `gcode_add_child parent child` is the identity on `parent` (and
does not attach `child`) whenever `parent` is NULL, `child` is NULL, or the
head of `parent` is not one of the parent-capable node types
(`GCODE_OPERATOR`, `GCODE_FUNCTION`, `GCODE_STATEMENT`); when the parent is
parent-capable and `child` is non-NULL, the result differs from `parent`
only in that the child chain is appended at the end of the parent's child
list. -/
theorem C10_gcode_add_child (parent child : List GCodeNode) :
    ((parent = [] ∨ child = [] ∨
        ∀ p, parent.head? = some p → p.isParentCapable = false) →
      gcode_add_child parent child = parent)
    ∧ (∀ p rest, parent = p :: rest → p.isParentCapable = true → child ≠ [] →
      gcode_add_child parent child =
        p.setChildren (p.children ++ child) :: rest) := by
  constructor
  · rintro (rfl | rfl | hcap)
    · rfl
    · cases parent with
      | nil => rfl
      | cons p rest => simp [gcode_add_child]
    · cases parent with
      | nil => rfl
      | cons p rest =>
          have hc := hcap p rfl
          simp [gcode_add_child, hc]
  · intro p rest hpar hcap hch
    subst hpar
    simp only [gcode_add_child]
    rw [if_neg (by simp [hcap, List.isEmpty_iff, hch])]
    by_cases hemp : p.children.isEmpty
    · rw [if_pos hemp]
      rw [List.isEmpty_iff] at hemp
      rw [hemp, List.nil_append]
    · rw [if_neg hemp, chainAttach_eq_append]

/-- Witness for C6: from `SCAN_HEX_EXPONENT` with mantissa 1, positive sign
and accumulated exponent 1, the terminator ` ` emits
`float_literal (1 * 16 ^ 1)`. -/
theorem C6_hex_exponent_base16_witness :
    (scanSwitch { initLexer with state := .SCAN_HEX_EXPONENT, float_value := F64.ofInt 1, exponent_sign := 1, int_value := 1, digit_count := 1 } ' ').evs
      = [Event.float_literal ((F64.ofInt 1).mul ((F64.ofInt 16).zpow (1 * 1)))] :=
  ((C6_hex_exponent_base16
      { initLexer with state := .SCAN_HEX_EXPONENT, float_value := F64.ofInt 1, exponent_sign := 1, int_value := 1, digit_count := 1 }
      ' ' rfl).1
    (by decide) (by decide)).1

/-- Witness for C7: in the post-expression state, the character `a` emits a
`Bridge` and switches to word mode. -/
theorem C7_after_expr_bridge_witness :
    (scanSwitch { initLexer with state := .SCAN_AFTER_EXPR } 'a').evs = [Event.bridge] :=
  (((C7_after_expr_bridge { initLexer with state := .SCAN_AFTER_EXPR } 'a').2.1
      rfl (by decide))).1

/-- Witness for C8: in the discard state, the byte `a` produces no callback
invocation and stays in the discard state. -/
theorem C8_error_recovery_witness :
    (scanChar errorLexer 'a').2 = []
      ∧ (scanChar errorLexer 'a').1.state =
          (if 'a' = '\n' then ScanState.SCAN_NEWLINE else ScanState.SCAN_ERROR) :=
  (C8_error_recovery errorLexer 'a').2 rfl

/-- Witness for C9: from the line-number state, the (non-digit!) run `AB1`
is scanned with no callback invocation at all, the lexer staying in the
line-number state. -/
theorem C9_lineno_swallow_witness :
    (gcode_lexer_scan linenoLexer ['A', 'B', '1']).2 = []
      ∧ (gcode_lexer_scan linenoLexer ['A', 'B', '1']).1.state = ScanState.SCAN_LINENO :=
  (C9_lineno_swallow linenoLexer 'x' ['A', 'B', '1']).2.2.2.2.2.2 rfl (by decide)

/-- Witness for C2: on a concrete wrapped queue (capacity 4, two entries
starting at slot 3), a push appends at the logical tail, preserving FIFO
order of the contents. -/
theorem C2_queue_fifo_witness :
    queueContents (ring_add_nofull
        { size := 2, ring := fun _ => RingEntry.error [], ring_pos := 3, ring_size := 4 }
        (RingEntry.error ['x']))
      = queueContents
          { size := 2, ring := fun _ => RingEntry.error [], ring_pos := 3, ring_size := 4 }
        ++ [RingEntry.error ['x']] :=
  ((C2_queue_fifo_and_growth_bug
      { size := 2, ring := fun _ => RingEntry.error [], ring_pos := 3, ring_size := 4 }
      (RingEntry.error ['x']) (by decide)).1 (by decide)).2.1

/-- Witness for C3: pushing an `M112` statement into a concrete non-full
queue fires the host `m112` callback at parse time. -/
theorem C3_m112_at_parse_time_witness :
    ((parse_statement
        { size := 0, ring := fun _ => RingEntry.error [], ring_pos := 0, ring_size := 4 }
        ⟨"M112".toList, []⟩).2 = true
      ↔ (⟨"M112".toList, []⟩ : GCodeStatementNode).command = "M112".toList) :=
  (C3_m112_at_parse_time
      { size := 0, ring := fun _ => RingEntry.error [], ring_pos := 0, ring_size := 4 }
      ⟨"M112".toList, []⟩ (by decide) (by decide)).1

/-- Witness for C10: appending a child to an `Operator` node extends its
child list at the end. -/
theorem C10_gcode_add_child_witness :
    gcode_add_child [GCodeNode.operator .GCODE_ADD [GCodeNode.int 1]] [GCodeNode.int 2]
      = (GCodeNode.operator .GCODE_ADD [GCodeNode.int 1]).setChildren
          ((GCodeNode.operator .GCODE_ADD [GCodeNode.int 1]).children
            ++ [GCodeNode.int 2]) :: [] :=
  (C10_gcode_add_child [GCodeNode.operator .GCODE_ADD [GCodeNode.int 1]]
      [GCodeNode.int 2]).2
    (GCodeNode.operator .GCODE_ADD [GCodeNode.int 1]) [] rfl rfl (by simp)
